import Mathlib

/-!
A shallow embedding of the core of the photothing-api backend: the keyset
pagination engine (`src/db/pagination.rs`), the relational model for photos,
albums, album membership and published albums (`src/db/photo.rs`,
`src/db/album.rs`, `src/db/publishing.rs`, `src/db/user.rs`), and the
album/photo service layer (`src/albums.rs`, `src/photos.rs`, `src/errors.rs`).

Conventions of the embedding:
* Rust `i32`/`i64` become `Int` (no arithmetic in the modelled paths can
  overflow 64 bits; the one place the `i32` range matters, `str::parse::<i32>`,
  models the range check explicitly).
* The PostgreSQL database is modelled as an explicit `Db` state of row lists,
  kept in insertion order; each diesel query/statement is translated to its
  SQL semantics over that state.  DB-level failures (lost connection etc.) are
  outside the model, so the `QueryResult` layer is infallible here; the
  `Option`/not-found structure of each operation is preserved exactly.
* `DateTime` columns are carried as opaque `Int` payload.
-/

set_option maxRecDepth 8192

instance {ε α : Type} [DecidableEq ε] [DecidableEq α] : DecidableEq (Except ε α) :=
  fun a b =>
    match a, b with
    | .ok x, .ok y => if h : x = y then .isTrue (by rw [h]) else .isFalse (by simp [h])
    | .error x, .error y => if h : x = y then .isTrue (by rw [h]) else .isFalse (by simp [h])
    | .ok _, .error _ => .isFalse (by simp)
    | .error _, .ok _ => .isFalse (by simp)

/-! ## Pagination engine (`src/db/pagination.rs`) -/

def DEFAULT_PER_PAGE : Int := 30

/-- Model of `Pagination` from `pagination.rs`: user-supplied pagination params. -/
structure Pagination where
  key : Option Int
  per_page : Int
  deriving Repr, DecidableEq

/-- Model of `Pagination::new`: `per_page` falls back to the default unless `>= 1`. -/
def Pagination.new (key : Option Int) (pp : Option Int) : Pagination :=
  match pp with
  | some pp => if pp ≥ 1 then { key, per_page := pp } else { key, per_page := DEFAULT_PER_PAGE }
  | none => { key, per_page := DEFAULT_PER_PAGE }

/-- Model of `Pagination::first()`. -/
def Pagination.first : Pagination := Pagination.new none none

/-- Model of `Pagination::page(key)`. -/
def Pagination.page (key : Int) : Pagination := Pagination.new (some key) none

/-- Model of `Pagination::limit()`. -/
def Pagination.limit (p : Pagination) : Int := p.per_page

/-- Model of `Page<T>` from `pagination.rs`: one page of results. -/
structure Page (T : Type) where
  key : Option Int
  next_key : Option Int
  remaining : Int
  items : List T
  deriving Repr, DecidableEq

/-- Model of `Page::empty()`. -/
def Page.empty {T : Type} : Page T :=
  { key := none, next_key := none, remaining := 0, items := [] }

/-- Model of `Page::is_empty()`. -/
def Page.isEmptyPage {T : Type} (p : Page T) : Bool := p.items.isEmpty

/-- Model of `Page::map_items`: transform the item vector, keep the cursor fields. -/
def Page.map_items {T U : Type} (p : Page T) (item_mapper : List T → List U) : Page U :=
  { items := item_mapper p.items
    key := p.key
    remaining := p.remaining
    next_key := p.next_key }

/-- Model of `Page::map`: itemwise mapping, implemented via `map_items` as in the source. -/
def Page.map {T U : Type} (p : Page T) (mapper : T → U) : Page U :=
  p.map_items (fun items => items.map mapper)

/-- Sorted insertion, the helper for `sortBy` below. -/
def insertBy {α : Type} (le : α → α → Bool) (a : α) : List α → List α
  | [] => [a]
  | b :: bs => if le a b then a :: b :: bs else b :: insertBy le a bs

/-- Insertion sort, used to model the `ORDER BY id ASC` clause (structurally
recursive so concrete pages evaluate by `decide`).  `id` is a key, so ties
never arise and stability is irrelevant. -/
def sortBy {α : Type} (le : α → α → Bool) : List α → List α
  | [] => []
  | a :: as => insertBy le a (sortBy le as)

/-- Maximum of a list of integers: the SQL `MAX` aggregate.  (`MAX` over an
empty set is `NULL`; the 0 default below is never consumed, because an empty
result set produces no output row at all.) -/
def listMax : List Int → Int
  | [] => 0
  | x :: xs => xs.foldl max x

/-- Model of `Paginated<T>` from `pagination.rs`.  The wrapped diesel `query` is
modelled by its result set: the list of rows the base query produces,
in table order. -/
structure Paginated (α : Type) where
  query : List α
  page : Pagination

/-- Model of `Paginate::paginate`. -/
def List.paginate {α : Type} (rows : List α) (page : Pagination) : Paginated α :=
  { query := rows, page }

/-- Semantics of the SQL emitted by `Paginated::walk_ast`:

    SELECT *, COUNT(*) OVER (), MAX(id) OVER () FROM (base) t
    WHERE id > $key ORDER BY id ASC LIMIT $per_page

evaluated under PostgreSQL semantics: the `WHERE` filter runs first, the
window functions in the SELECT list are computed over the rows that survive
`WHERE` (the full filtered partition, not the page), then `ORDER BY` and
finally `LIMIT` are applied.  `key` defaults to 0 when absent, as in the
source (`self.page.key.unwrap_or(0)`).  `getId` reads the row's `id`
column (the column the generated SQL hard-codes). -/
def Paginated.sqlRows {α : Type} (getId : α → Int) (q : Paginated α) :
    List (α × Int × Int) :=
  let key := q.page.key.getD 0
  let filtered := q.query.filter (fun r => key < getId r)
  let total : Int := filtered.length
  let maxId : Int := listMax (filtered.map getId)
  let sorted := sortBy (fun a b => getId a ≤ getId b) filtered
  (sorted.map (fun r => (r, total, maxId))).take q.page.limit.toNat

/-- Model of `Paginated::load_and_count_pages`: run the query, read the two window
aggregates off the first returned row (`(0, None)` when the page is empty),
strip the aggregates from the items and compute `remaining`. -/
def Paginated.load_and_count_pages {α : Type} (getId : α → Int) (q : Paginated α) :
    Page α :=
  let key := q.page.key
  let results := q.sqlRows getId
  let agg := (results.head?.map (fun x => (x.2.1, some x.2.2))).getD (0, none)
  let items := results.map (fun x => x.1)
  let remaining : Int := agg.1 - items.length
  { items, key, next_key := agg.2, remaining }

example :
    (Paginated.load_and_count_pages (fun i => i)
      (List.paginate [(1 : Int), 2, 3] (Pagination.new none (some 2)))) =
    { key := none, next_key := some 3, remaining := 1, items := [1, 2] } := by
  decide

example :
    (Paginated.load_and_count_pages (fun i => i)
      (List.paginate [(1 : Int)] (Pagination.page 1))) =
    { key := some 1, next_key := none, remaining := 0, items := [] } := by
  decide

/-! ## Relational model: row types (`src/db/*.rs`)

Each structure mirrors the `Queryable` struct of the corresponding table;
columns the modelled code never reads (password hash, subscription expiry,
the timestamps of the `users` table) are omitted as inert payload. -/

/-- Row of the `users` table (`src/db/user.rs`, fields used by the core). -/
structure User where
  id : Int
  email : String
  uuid : String
  deriving Repr, DecidableEq

/-- Row of the `photos` table (`src/db/photo.rs`). -/
structure Photo where
  id : Int
  uuid : String
  owner : Int
  present : Option Bool
  created_at : Int
  updated_at : Int
  deriving Repr, DecidableEq

/-- Row of the `photo_attrs` table (`src/db/photo.rs`). -/
structure PhotoAttr where
  photo_id : Int
  key : String
  value : String
  updated_at : Int
  deriving Repr, DecidableEq

/-- Row of the `photo_albums` table (`src/db/album.rs`, struct `Album`). -/
structure Album where
  id : Int
  user_id : Int
  name : Option String
  created_at : Int
  deriving Repr, DecidableEq

/-- Row of the `album_membership` table (`src/db/album.rs`). -/
structure AlbumMembership where
  photo_id : Int
  album_id : Int
  ordering : Option Int
  caption : Option String
  updated_at : Int
  deriving Repr, DecidableEq

/-- Row of the `published_albums` table (`src/db/publishing.rs`). -/
structure PublishedAlbum where
  id : Int
  album_id : Int
  user_id : Int
  active : Bool
  created_at : Int
  deriving Repr, DecidableEq

/-- The database state: one row list per table, in insertion order. -/
structure Db where
  users : List User
  photos : List Photo
  photo_attrs : List PhotoAttr
  photo_albums : List Album
  album_membership : List AlbumMembership
  published_albums : List PublishedAlbum
  deriving Repr, DecidableEq

/-! ## Relational model: operations -/

/-- Model of `User::by_id`: `users.filter(id.eq(user_id)).first(db).optional()`. -/
def User.by_id (db : Db) (user_id : Int) : Option User :=
  (db.users.filter (fun u => u.id == user_id)).head?

/-- Model of `Album::by_id`: filter by album id and by the calling user's id,
take the first row if any.  An album owned by another user is filtered out
exactly like an absent one. -/
def Album.by_id (db : Db) (user : User) (album_id : Int) : Option Album :=
  (db.photo_albums.filter (fun a => a.id == album_id && a.user_id == user.id)).head?

/-- One `NewAlbumMember` value: the insert payload of `Album::add_photos`
(primary-key columns only; `ordering`/`caption` take their column defaults
`NULL`, `updated_at` its `now()` default, carried abstractly as 0). -/
def NewAlbumMember.row (photo_id album_id : Int) : AlbumMembership :=
  { photo_id, album_id, ordering := none, caption := none, updated_at := 0 }

/-- Semantics of one row of an `INSERT ... ON CONFLICT DO NOTHING` into
`album_membership`: the row is appended unless a row with the same composite
primary key `(photo_id, album_id)` is already there (rows earlier in the same
statement included), in which case it is silently skipped.  Returns the rows
plus the number of rows actually inserted. -/
def insertMemberRow (rows : List AlbumMembership) (m : AlbumMembership) :
    List AlbumMembership × Nat :=
  if rows.any (fun r => r.photo_id == m.photo_id && r.album_id == m.album_id)
  then (rows, 0)
  else (rows ++ [m], 1)

/-- Model of `Album::add_photos`: bulk insert of `(photo, album)` pairs with
`on_conflict_do_nothing()`; returns the updated database and the count of
rows inserted (diesel's `execute` result). -/
def Album.add_photos (self : Album) (db : Db) (photos : List Int) : Db × Nat :=
  let id_pairs := photos.map (fun id => NewAlbumMember.row id self.id)
  let inserted := id_pairs.foldl
    (fun acc m =>
      let step := insertMemberRow acc.1 m
      (step.1, acc.2 + step.2))
    (db.album_membership, 0)
  ({ db with album_membership := inserted.1 }, inserted.2)

/-- Model of `Album::remove_photos`: one `DELETE` per listed photo id,
deleting the membership rows with `album_id = self.id AND photo_id = p_id`;
returns the updated database and `photos.len()` as in the source. -/
def Album.remove_photos (self : Album) (db : Db) (photos : List Int) : Db × Nat :=
  let rows := photos.foldl
    (fun rows p_id =>
      rows.filter (fun r => !(r.album_id == self.id && r.photo_id == p_id)))
    db.album_membership
  ({ db with album_membership := rows }, photos.length)

/-- Base result set of the query inside `Album::get_photos`:
`AlbumMembership::belonging_to(self).inner_join(photos)` — the membership
rows of this album joined to their photo row on `photo_id = photos.id`.
The unqualified `id` column of the join (the one the pagination SQL sorts,
filters and aggregates on) is `photos.id`. -/
def Album.photoJoin (self : Album) (db : Db) : List (AlbumMembership × Photo) :=
  (db.album_membership.filter (fun m => m.album_id == self.id)).flatMap
    (fun m => (db.photos.filter (fun p => p.id == m.photo_id)).map (fun p => (m, p)))

/-- Model of `PhotoAttr::belonging_to(&db_photos).load(db)?.grouped_by(&db_photos)`:
the attribute rows of each returned photo, grouped per photo in photo order. -/
def groupedAttrs (db : Db) (db_photos : List Photo) : List (List PhotoAttr) :=
  db_photos.map (fun p => db.photo_attrs.filter (fun a => a.photo_id == p.id))

/-- Model of `Album::get_photos`: paginate the membership-photo join by photo
id, then fetch and group the attribute rows of the returned photos and zip
`(photo, membership, attrs)` back together, rebuilding the page around the
zipped items as the source does. -/
def Album.get_photos (self : Album) (db : Db) (page : Pagination) :
    Page (Photo × AlbumMembership × List PhotoAttr) :=
  let album_photos :=
    Paginated.load_and_count_pages (fun mp => mp.2.id)
      (List.paginate (self.photoJoin db) page)
  let membership := album_photos.items.map (fun mp => mp.1)
  let db_photos := album_photos.items.map (fun mp => mp.2)
  let attributes := groupedAttrs db db_photos
  { key := album_photos.key
    next_key := album_photos.next_key
    remaining := album_photos.remaining
    items := db_photos.zip (membership.zip attributes) }

/-- Model of `PublishedAlbum::by_id`: filter by id, first row, optional. -/
def PublishedAlbum.by_id (db : Db) (given_id : Int) : Option PublishedAlbum :=
  (db.published_albums.filter (fun p => p.id == given_id)).head?

/-- Model of `PublishedAlbum::set_active`: `UPDATE published_albums SET active =
$new_active WHERE id = self.id` (diesel's `update(&self)` targets the primary
key); returns the updated database. -/
def PublishedAlbum.set_active (self : PublishedAlbum) (db : Db) (new_active : Bool) : Db :=
  let rows := db.published_albums.map
    (fun r => if r.id == self.id then { r with active := new_active } else r)
  { db with published_albums := rows }

/-- Model of `PublishedAlbum::delete`: `DELETE FROM published_albums WHERE id =
self.id`. -/
def PublishedAlbum.delete (self : PublishedAlbum) (db : Db) : Db :=
  { db with published_albums :=
      db.published_albums.filter (fun r => !(r.id == self.id)) }

/-! ## Error type (`src/errors.rs`) -/

/-- HTTP statuses used by `ApiError` in the core paths. -/
inductive Status where
  | NotFound
  | InternalServerError
  | BadRequest
  | Unauthorized
  deriving Repr, DecidableEq

/-- Model of `ApiError`: the status plus the message that `respond_to`
serializes into the response body, so two `ApiError`s are the same
wire-visible outcome exactly when they are equal. -/
structure ApiError where
  status : Status
  message : String
  deriving Repr, DecidableEq

/-- Model of `ApiError::is_user_error`. -/
def ApiError.is_user_error (e : ApiError) : Bool :=
  e.status == Status.BadRequest || e.status == Status.NotFound

/-- Model of `ApiError::not_found`: `Some` passes through, `None` becomes a
404 carrying the given message. -/
def ApiError.not_found {T : Type} (opt : Option T) (message : String) :
    Except ApiError T :=
  match opt with
  | some val => .ok val
  | none => .error { status := Status.NotFound, message }

/-- Model of `ApiError::server_error`.  In the source it wraps a
`QueryResult`, turning a database failure into a 500; database failures are
outside this model (see the header), so here the wrapped value always comes
back `Ok`. -/
def ApiError.server_error {T : Type} (val : T) : Except ApiError T := .ok val

/-! ## Service layer: photo decoration (`src/photos.rs`, `src/s3.rs`) -/

/-- Configuration of the storage collaborator (`S3Access` in `src/s3.rs`,
fields the core reads). -/
structure S3Access where
  bucket : String
  cdn_url : String
  deriving Repr, DecidableEq

/-- Modelled from the spec: `cdn_url_of_entity` is called from
`photos.rs` (`s3.cdn_url_of_entity(&user.uuid, &photo.uuid)`) but its
definition is not part of the core sources; spec §6 describes it as
`resolvePublicUrl(ownerUuid, photoUuid) -> URL`, a pure URL derivation from
the owner's uuid and the photo's uuid.  Modelled after the
`https://{cdn_url}/{directory}/{id}` shape of `get_url` in `s3.rs`. -/
def S3Access.cdn_url_of_entity (s3 : S3Access) (directory : String) (id : String) :
    String :=
  "https://" ++ s3.cdn_url ++ "/" ++ directory ++ "/" ++ id

/-- Insert-or-overwrite on an association list: the semantics of
`HashMap::insert` keyed by `String`, keeping first-insertion order. -/
def mapInsert (m : List (String × String)) (k v : String) :
    List (String × String) :=
  if m.any (fun kv => kv.1 == k)
  then m.map (fun kv => if kv.1 == k then (k, v) else kv)
  else m ++ [(k, v)]

/-- Model of the user-facing `Photo` struct of `src/photos.rs` (named
`ApiPhoto` here because the row struct already holds the name `Photo`;
`attributes` models the `HashMap<String, String>`). -/
structure ApiPhoto where
  id : Int
  uuid : String
  url : String
  present : Bool
  created_at : Int
  attributes : List (String × String)
  deriving Repr, DecidableEq

/-- Model of `photos::Photo::new`: fold the attribute rows into the map and
decorate the row with the CDN url of the photo object. -/
def ApiPhoto.new (user : User) (s3 : S3Access) (photo : Photo)
    (attributes : List PhotoAttr) : ApiPhoto :=
  let attr_map := attributes.foldl (fun m a => mapInsert m a.key a.value) []
  { id := photo.id
    uuid := photo.uuid
    url := s3.cdn_url_of_entity user.uuid photo.uuid
    present := photo.present.getD false
    created_at := photo.created_at
    attributes := attr_map }

/-! ## Service layer: albums (`src/albums.rs`) -/

/-- Model of `albums::AlbumEntry`: one decorated photo of an album page. -/
structure AlbumEntry where
  photo : ApiPhoto
  ordering : Option Int
  caption : Option String
  updated_at : Int
  deriving Repr, DecidableEq

/-- Model of `albums::AlbumEntry::new`. -/
def AlbumEntry.new (user : User) (s3 : S3Access) (photo : Photo)
    (album : AlbumMembership) (attrs : List PhotoAttr) : AlbumEntry :=
  { photo := ApiPhoto.new user s3 photo attrs
    ordering := album.ordering
    caption := album.caption
    updated_at := album.updated_at }

/-- Model of the API-facing `albums::Album` shape (named `ApiAlbum` here
because the row struct already holds the name `Album`). -/
structure ApiAlbum where
  id : Int
  created_at : Int
  name : Option String
  photos : Page AlbumEntry
  deriving Repr, DecidableEq

/-- Model of `albums::Album::new`. -/
def ApiAlbum.new (album : Album) (photos : Page AlbumEntry) : ApiAlbum :=
  { id := album.id, created_at := album.created_at, name := album.name, photos }

/-- Model of `fetch_db_album`: owner-scoped lookup; an empty result (absent
id or an album owned by someone else alike) becomes the one 404. -/
def fetch_db_album (db : Db) (user : User) (id : Int) :
    Except ApiError Album := do
  let album ← ApiError.server_error (Album.by_id db user id)
  ApiError.not_found album s!"could not find album with id={id}"

/-- Model of `load_photos_page`: load one page of the album's photos and
decorate each `(photo, membership, attrs)` triple into an `AlbumEntry`. -/
def load_photos_page (user : User) (s3 : S3Access) (db : Db) (album : Album)
    (page : Pagination) : Except ApiError ApiAlbum :=
  let photos := album.get_photos db page
  let photos := photos.map (fun pma => AlbumEntry.new user s3 pma.1 pma.2.1 pma.2.2)
  .ok (ApiAlbum.new album photos)

/-- Model of `load_photos`: first page. -/
def load_photos (user : User) (s3 : S3Access) (db : Db) (album : Album) :
    Except ApiError ApiAlbum :=
  load_photos_page user s3 db album Pagination.first

/-- Model of `albums::fetch_album`. -/
def fetch_album (db : Db) (user : User) (s3 : S3Access) (id : Int)
    (page : Pagination) : Except ApiError ApiAlbum := do
  let album ← fetch_db_album db user id
  load_photos_page user s3 db album page

/-- Model of `albums::add_photos_to_album`: scoped fetch, bulk insert, then
reload the first page; returns the updated database next to the result. -/
def add_photos_to_album (db : Db) (user : User) (s3 : S3Access) (id : Int)
    (photo_ids : List Int) : Db × Except ApiError ApiAlbum :=
  match fetch_db_album db user id with
  | .error e => (db, .error e)
  | .ok album =>
    let db := (album.add_photos db photo_ids).1
    (db, load_photos user s3 db album)

/-- Model of `albums::remove_photos_from_album`: scoped fetch, per-id delete,
then reload the first page; returns the updated database next to the result. -/
def remove_photos_from_album (db : Db) (user : User) (s3 : S3Access) (id : Int)
    (photo_ids : List Int) : Db × Except ApiError ApiAlbum :=
  match fetch_db_album db user id with
  | .error e => (db, .error e)
  | .ok album =>
    let db := (album.remove_photos db photo_ids).1
    (db, load_photos user s3 db album)

/-! ## Attribute validation (`src/db/photo.rs`) -/

def ERR_TAG_LEN_30 : String := "TAG_TOO_LONG_MAX_30"

def ERR_TAG_EMPTY : String := "TAG_EMPTY"

def ERR_VALUE_LEN_100 : String := "VALUE_TOO_LONG_MAX_100"

def ERR_VALUE_EMPTY : String := "VALUE_EMPTY"

/-- Model of the validated `AttributeKeyValue` pair. -/
structure AttributeKeyValue where
  key : String
  value : String
  deriving Repr, DecidableEq

/-- Model of Rust `str::len`: the length in UTF-8 bytes (what the source's
`key.len() > 30` / `value.len() > 100` checks measure). -/
def rustStrLen (s : String) : Nat := s.utf8ByteSize

/-! ### Model of `str::to_lowercase`

Rust's `str::to_lowercase` performs full Unicode lowercasing: each character
maps through the Unicode character database's lowercase mapping (including
the one-to-many special mappings), and capital sigma is subject to the
context-sensitive `Final_Sigma` rule.  The tables below are the Unicode
database's data (Unicode 14.0): the nontrivial lowercase mappings, and the
`Cased` / `Case_Ignorable` ranges the `Final_Sigma` rule consults. -/

/-- Chunk 0 of the Unicode lowercase-mapping table. -/
def lowerMapChunk0 : List (Nat × List Nat) :=
  [(65, [97]), (66, [98]), (67, [99]), (68, [100]), (69, [101]),
   (70, [102]), (71, [103]), (72, [104]), (73, [105]), (74, [106]),
   (75, [107]), (76, [108]), (77, [109]), (78, [110]), (79, [111]),
   (80, [112]), (81, [113]), (82, [114]), (83, [115]), (84, [116]),
   (85, [117]), (86, [118]), (87, [119]), (88, [120]), (89, [121]),
   (90, [122]), (192, [224]), (193, [225]), (194, [226]), (195, [227]),
   (196, [228]), (197, [229]), (198, [230]), (199, [231]), (200, [232]),
   (201, [233]), (202, [234]), (203, [235]), (204, [236]), (205, [237]),
   (206, [238]), (207, [239]), (208, [240]), (209, [241]), (210, [242]),
   (211, [243]), (212, [244]), (213, [245]), (214, [246]), (216, [248]),
   (217, [249]), (218, [250]), (219, [251]), (220, [252]), (221, [253]),
   (222, [254]), (256, [257]), (258, [259]), (260, [261]), (262, [263]),
   (264, [265]), (266, [267]), (268, [269]), (270, [271]), (272, [273]),
   (274, [275]), (276, [277]), (278, [279]), (280, [281]), (282, [283]),
   (284, [285]), (286, [287]), (288, [289]), (290, [291]), (292, [293]),
   (294, [295]), (296, [297]), (298, [299]), (300, [301]), (302, [303]),
   (304, [105, 775]), (306, [307]), (308, [309]), (310, [311]), (313, [314]),
   (315, [316]), (317, [318]), (319, [320]), (321, [322]), (323, [324]),
   (325, [326]), (327, [328]), (330, [331]), (332, [333]), (334, [335]),
   (336, [337]), (338, [339]), (340, [341]), (342, [343]), (344, [345]),
   (346, [347]), (348, [349]), (350, [351]), (352, [353]), (354, [355]),
   (356, [357]), (358, [359]), (360, [361]), (362, [363]), (364, [365]),
   (366, [367]), (368, [369]), (370, [371]), (372, [373]), (374, [375]),
   (376, [255]), (377, [378]), (379, [380]), (381, [382]), (385, [595]),
   (386, [387]), (388, [389]), (390, [596]), (391, [392]), (393, [598]),
   (394, [599]), (395, [396]), (398, [477]), (399, [601]), (400, [603]),
   (401, [402]), (403, [608]), (404, [611]), (406, [617]), (407, [616]),
   (408, [409]), (412, [623]), (413, [626]), (415, [629]), (416, [417]),
   (418, [419]), (420, [421]), (422, [640]), (423, [424]), (425, [643]),
   (428, [429]), (430, [648]), (431, [432]), (433, [650]), (434, [651]),
   (435, [436]), (437, [438]), (439, [658]), (440, [441]), (444, [445]),
   (452, [454]), (453, [454]), (455, [457]), (456, [457]), (458, [460])]

/-- Chunk 1 of the Unicode lowercase-mapping table. -/
def lowerMapChunk1 : List (Nat × List Nat) :=
  [(459, [460]), (461, [462]), (463, [464]), (465, [466]), (467, [468]),
   (469, [470]), (471, [472]), (473, [474]), (475, [476]), (478, [479]),
   (480, [481]), (482, [483]), (484, [485]), (486, [487]), (488, [489]),
   (490, [491]), (492, [493]), (494, [495]), (497, [499]), (498, [499]),
   (500, [501]), (502, [405]), (503, [447]), (504, [505]), (506, [507]),
   (508, [509]), (510, [511]), (512, [513]), (514, [515]), (516, [517]),
   (518, [519]), (520, [521]), (522, [523]), (524, [525]), (526, [527]),
   (528, [529]), (530, [531]), (532, [533]), (534, [535]), (536, [537]),
   (538, [539]), (540, [541]), (542, [543]), (544, [414]), (546, [547]),
   (548, [549]), (550, [551]), (552, [553]), (554, [555]), (556, [557]),
   (558, [559]), (560, [561]), (562, [563]), (570, [11365]), (571, [572]),
   (573, [410]), (574, [11366]), (577, [578]), (579, [384]), (580, [649]),
   (581, [652]), (582, [583]), (584, [585]), (586, [587]), (588, [589]),
   (590, [591]), (880, [881]), (882, [883]), (886, [887]), (895, [1011]),
   (902, [940]), (904, [941]), (905, [942]), (906, [943]), (908, [972]),
   (910, [973]), (911, [974]), (913, [945]), (914, [946]), (915, [947]),
   (916, [948]), (917, [949]), (918, [950]), (919, [951]), (920, [952]),
   (921, [953]), (922, [954]), (923, [955]), (924, [956]), (925, [957]),
   (926, [958]), (927, [959]), (928, [960]), (929, [961]), (931, [963]),
   (932, [964]), (933, [965]), (934, [966]), (935, [967]), (936, [968]),
   (937, [969]), (938, [970]), (939, [971]), (975, [983]), (984, [985]),
   (986, [987]), (988, [989]), (990, [991]), (992, [993]), (994, [995]),
   (996, [997]), (998, [999]), (1000, [1001]), (1002, [1003]), (1004, [1005]),
   (1006, [1007]), (1012, [952]), (1015, [1016]), (1017, [1010]), (1018, [1019]),
   (1021, [891]), (1022, [892]), (1023, [893]), (1024, [1104]), (1025, [1105]),
   (1026, [1106]), (1027, [1107]), (1028, [1108]), (1029, [1109]), (1030, [1110]),
   (1031, [1111]), (1032, [1112]), (1033, [1113]), (1034, [1114]), (1035, [1115]),
   (1036, [1116]), (1037, [1117]), (1038, [1118]), (1039, [1119]), (1040, [1072]),
   (1041, [1073]), (1042, [1074]), (1043, [1075]), (1044, [1076]), (1045, [1077]),
   (1046, [1078]), (1047, [1079]), (1048, [1080]), (1049, [1081]), (1050, [1082]),
   (1051, [1083]), (1052, [1084]), (1053, [1085]), (1054, [1086]), (1055, [1087]),
   (1056, [1088]), (1057, [1089]), (1058, [1090]), (1059, [1091]), (1060, [1092])]

/-- Chunk 2 of the Unicode lowercase-mapping table. -/
def lowerMapChunk2 : List (Nat × List Nat) :=
  [(1061, [1093]), (1062, [1094]), (1063, [1095]), (1064, [1096]), (1065, [1097]),
   (1066, [1098]), (1067, [1099]), (1068, [1100]), (1069, [1101]), (1070, [1102]),
   (1071, [1103]), (1120, [1121]), (1122, [1123]), (1124, [1125]), (1126, [1127]),
   (1128, [1129]), (1130, [1131]), (1132, [1133]), (1134, [1135]), (1136, [1137]),
   (1138, [1139]), (1140, [1141]), (1142, [1143]), (1144, [1145]), (1146, [1147]),
   (1148, [1149]), (1150, [1151]), (1152, [1153]), (1162, [1163]), (1164, [1165]),
   (1166, [1167]), (1168, [1169]), (1170, [1171]), (1172, [1173]), (1174, [1175]),
   (1176, [1177]), (1178, [1179]), (1180, [1181]), (1182, [1183]), (1184, [1185]),
   (1186, [1187]), (1188, [1189]), (1190, [1191]), (1192, [1193]), (1194, [1195]),
   (1196, [1197]), (1198, [1199]), (1200, [1201]), (1202, [1203]), (1204, [1205]),
   (1206, [1207]), (1208, [1209]), (1210, [1211]), (1212, [1213]), (1214, [1215]),
   (1216, [1231]), (1217, [1218]), (1219, [1220]), (1221, [1222]), (1223, [1224]),
   (1225, [1226]), (1227, [1228]), (1229, [1230]), (1232, [1233]), (1234, [1235]),
   (1236, [1237]), (1238, [1239]), (1240, [1241]), (1242, [1243]), (1244, [1245]),
   (1246, [1247]), (1248, [1249]), (1250, [1251]), (1252, [1253]), (1254, [1255]),
   (1256, [1257]), (1258, [1259]), (1260, [1261]), (1262, [1263]), (1264, [1265]),
   (1266, [1267]), (1268, [1269]), (1270, [1271]), (1272, [1273]), (1274, [1275]),
   (1276, [1277]), (1278, [1279]), (1280, [1281]), (1282, [1283]), (1284, [1285]),
   (1286, [1287]), (1288, [1289]), (1290, [1291]), (1292, [1293]), (1294, [1295]),
   (1296, [1297]), (1298, [1299]), (1300, [1301]), (1302, [1303]), (1304, [1305]),
   (1306, [1307]), (1308, [1309]), (1310, [1311]), (1312, [1313]), (1314, [1315]),
   (1316, [1317]), (1318, [1319]), (1320, [1321]), (1322, [1323]), (1324, [1325]),
   (1326, [1327]), (1329, [1377]), (1330, [1378]), (1331, [1379]), (1332, [1380]),
   (1333, [1381]), (1334, [1382]), (1335, [1383]), (1336, [1384]), (1337, [1385]),
   (1338, [1386]), (1339, [1387]), (1340, [1388]), (1341, [1389]), (1342, [1390]),
   (1343, [1391]), (1344, [1392]), (1345, [1393]), (1346, [1394]), (1347, [1395]),
   (1348, [1396]), (1349, [1397]), (1350, [1398]), (1351, [1399]), (1352, [1400]),
   (1353, [1401]), (1354, [1402]), (1355, [1403]), (1356, [1404]), (1357, [1405]),
   (1358, [1406]), (1359, [1407]), (1360, [1408]), (1361, [1409]), (1362, [1410]),
   (1363, [1411]), (1364, [1412]), (1365, [1413]), (1366, [1414]), (4256, [11520]),
   (4257, [11521]), (4258, [11522]), (4259, [11523]), (4260, [11524]), (4261, [11525]),
   (4262, [11526]), (4263, [11527]), (4264, [11528]), (4265, [11529]), (4266, [11530])]

/-- Chunk 3 of the Unicode lowercase-mapping table. -/
def lowerMapChunk3 : List (Nat × List Nat) :=
  [(4267, [11531]), (4268, [11532]), (4269, [11533]), (4270, [11534]), (4271, [11535]),
   (4272, [11536]), (4273, [11537]), (4274, [11538]), (4275, [11539]), (4276, [11540]),
   (4277, [11541]), (4278, [11542]), (4279, [11543]), (4280, [11544]), (4281, [11545]),
   (4282, [11546]), (4283, [11547]), (4284, [11548]), (4285, [11549]), (4286, [11550]),
   (4287, [11551]), (4288, [11552]), (4289, [11553]), (4290, [11554]), (4291, [11555]),
   (4292, [11556]), (4293, [11557]), (4295, [11559]), (4301, [11565]), (5024, [43888]),
   (5025, [43889]), (5026, [43890]), (5027, [43891]), (5028, [43892]), (5029, [43893]),
   (5030, [43894]), (5031, [43895]), (5032, [43896]), (5033, [43897]), (5034, [43898]),
   (5035, [43899]), (5036, [43900]), (5037, [43901]), (5038, [43902]), (5039, [43903]),
   (5040, [43904]), (5041, [43905]), (5042, [43906]), (5043, [43907]), (5044, [43908]),
   (5045, [43909]), (5046, [43910]), (5047, [43911]), (5048, [43912]), (5049, [43913]),
   (5050, [43914]), (5051, [43915]), (5052, [43916]), (5053, [43917]), (5054, [43918]),
   (5055, [43919]), (5056, [43920]), (5057, [43921]), (5058, [43922]), (5059, [43923]),
   (5060, [43924]), (5061, [43925]), (5062, [43926]), (5063, [43927]), (5064, [43928]),
   (5065, [43929]), (5066, [43930]), (5067, [43931]), (5068, [43932]), (5069, [43933]),
   (5070, [43934]), (5071, [43935]), (5072, [43936]), (5073, [43937]), (5074, [43938]),
   (5075, [43939]), (5076, [43940]), (5077, [43941]), (5078, [43942]), (5079, [43943]),
   (5080, [43944]), (5081, [43945]), (5082, [43946]), (5083, [43947]), (5084, [43948]),
   (5085, [43949]), (5086, [43950]), (5087, [43951]), (5088, [43952]), (5089, [43953]),
   (5090, [43954]), (5091, [43955]), (5092, [43956]), (5093, [43957]), (5094, [43958]),
   (5095, [43959]), (5096, [43960]), (5097, [43961]), (5098, [43962]), (5099, [43963]),
   (5100, [43964]), (5101, [43965]), (5102, [43966]), (5103, [43967]), (5104, [5112]),
   (5105, [5113]), (5106, [5114]), (5107, [5115]), (5108, [5116]), (5109, [5117]),
   (7312, [4304]), (7313, [4305]), (7314, [4306]), (7315, [4307]), (7316, [4308]),
   (7317, [4309]), (7318, [4310]), (7319, [4311]), (7320, [4312]), (7321, [4313]),
   (7322, [4314]), (7323, [4315]), (7324, [4316]), (7325, [4317]), (7326, [4318]),
   (7327, [4319]), (7328, [4320]), (7329, [4321]), (7330, [4322]), (7331, [4323]),
   (7332, [4324]), (7333, [4325]), (7334, [4326]), (7335, [4327]), (7336, [4328]),
   (7337, [4329]), (7338, [4330]), (7339, [4331]), (7340, [4332]), (7341, [4333]),
   (7342, [4334]), (7343, [4335]), (7344, [4336]), (7345, [4337]), (7346, [4338]),
   (7347, [4339]), (7348, [4340]), (7349, [4341]), (7350, [4342]), (7351, [4343]),
   (7352, [4344]), (7353, [4345]), (7354, [4346]), (7357, [4349]), (7358, [4350])]

/-- Chunk 4 of the Unicode lowercase-mapping table. -/
def lowerMapChunk4 : List (Nat × List Nat) :=
  [(7359, [4351]), (7680, [7681]), (7682, [7683]), (7684, [7685]), (7686, [7687]),
   (7688, [7689]), (7690, [7691]), (7692, [7693]), (7694, [7695]), (7696, [7697]),
   (7698, [7699]), (7700, [7701]), (7702, [7703]), (7704, [7705]), (7706, [7707]),
   (7708, [7709]), (7710, [7711]), (7712, [7713]), (7714, [7715]), (7716, [7717]),
   (7718, [7719]), (7720, [7721]), (7722, [7723]), (7724, [7725]), (7726, [7727]),
   (7728, [7729]), (7730, [7731]), (7732, [7733]), (7734, [7735]), (7736, [7737]),
   (7738, [7739]), (7740, [7741]), (7742, [7743]), (7744, [7745]), (7746, [7747]),
   (7748, [7749]), (7750, [7751]), (7752, [7753]), (7754, [7755]), (7756, [7757]),
   (7758, [7759]), (7760, [7761]), (7762, [7763]), (7764, [7765]), (7766, [7767]),
   (7768, [7769]), (7770, [7771]), (7772, [7773]), (7774, [7775]), (7776, [7777]),
   (7778, [7779]), (7780, [7781]), (7782, [7783]), (7784, [7785]), (7786, [7787]),
   (7788, [7789]), (7790, [7791]), (7792, [7793]), (7794, [7795]), (7796, [7797]),
   (7798, [7799]), (7800, [7801]), (7802, [7803]), (7804, [7805]), (7806, [7807]),
   (7808, [7809]), (7810, [7811]), (7812, [7813]), (7814, [7815]), (7816, [7817]),
   (7818, [7819]), (7820, [7821]), (7822, [7823]), (7824, [7825]), (7826, [7827]),
   (7828, [7829]), (7838, [223]), (7840, [7841]), (7842, [7843]), (7844, [7845]),
   (7846, [7847]), (7848, [7849]), (7850, [7851]), (7852, [7853]), (7854, [7855]),
   (7856, [7857]), (7858, [7859]), (7860, [7861]), (7862, [7863]), (7864, [7865]),
   (7866, [7867]), (7868, [7869]), (7870, [7871]), (7872, [7873]), (7874, [7875]),
   (7876, [7877]), (7878, [7879]), (7880, [7881]), (7882, [7883]), (7884, [7885]),
   (7886, [7887]), (7888, [7889]), (7890, [7891]), (7892, [7893]), (7894, [7895]),
   (7896, [7897]), (7898, [7899]), (7900, [7901]), (7902, [7903]), (7904, [7905]),
   (7906, [7907]), (7908, [7909]), (7910, [7911]), (7912, [7913]), (7914, [7915]),
   (7916, [7917]), (7918, [7919]), (7920, [7921]), (7922, [7923]), (7924, [7925]),
   (7926, [7927]), (7928, [7929]), (7930, [7931]), (7932, [7933]), (7934, [7935]),
   (7944, [7936]), (7945, [7937]), (7946, [7938]), (7947, [7939]), (7948, [7940]),
   (7949, [7941]), (7950, [7942]), (7951, [7943]), (7960, [7952]), (7961, [7953]),
   (7962, [7954]), (7963, [7955]), (7964, [7956]), (7965, [7957]), (7976, [7968]),
   (7977, [7969]), (7978, [7970]), (7979, [7971]), (7980, [7972]), (7981, [7973]),
   (7982, [7974]), (7983, [7975]), (7992, [7984]), (7993, [7985]), (7994, [7986]),
   (7995, [7987]), (7996, [7988]), (7997, [7989]), (7998, [7990]), (7999, [7991]),
   (8008, [8000]), (8009, [8001]), (8010, [8002]), (8011, [8003]), (8012, [8004])]

/-- Chunk 5 of the Unicode lowercase-mapping table. -/
def lowerMapChunk5 : List (Nat × List Nat) :=
  [(8013, [8005]), (8025, [8017]), (8027, [8019]), (8029, [8021]), (8031, [8023]),
   (8040, [8032]), (8041, [8033]), (8042, [8034]), (8043, [8035]), (8044, [8036]),
   (8045, [8037]), (8046, [8038]), (8047, [8039]), (8072, [8064]), (8073, [8065]),
   (8074, [8066]), (8075, [8067]), (8076, [8068]), (8077, [8069]), (8078, [8070]),
   (8079, [8071]), (8088, [8080]), (8089, [8081]), (8090, [8082]), (8091, [8083]),
   (8092, [8084]), (8093, [8085]), (8094, [8086]), (8095, [8087]), (8104, [8096]),
   (8105, [8097]), (8106, [8098]), (8107, [8099]), (8108, [8100]), (8109, [8101]),
   (8110, [8102]), (8111, [8103]), (8120, [8112]), (8121, [8113]), (8122, [8048]),
   (8123, [8049]), (8124, [8115]), (8136, [8050]), (8137, [8051]), (8138, [8052]),
   (8139, [8053]), (8140, [8131]), (8152, [8144]), (8153, [8145]), (8154, [8054]),
   (8155, [8055]), (8168, [8160]), (8169, [8161]), (8170, [8058]), (8171, [8059]),
   (8172, [8165]), (8184, [8056]), (8185, [8057]), (8186, [8060]), (8187, [8061]),
   (8188, [8179]), (8486, [969]), (8490, [107]), (8491, [229]), (8498, [8526]),
   (8544, [8560]), (8545, [8561]), (8546, [8562]), (8547, [8563]), (8548, [8564]),
   (8549, [8565]), (8550, [8566]), (8551, [8567]), (8552, [8568]), (8553, [8569]),
   (8554, [8570]), (8555, [8571]), (8556, [8572]), (8557, [8573]), (8558, [8574]),
   (8559, [8575]), (8579, [8580]), (9398, [9424]), (9399, [9425]), (9400, [9426]),
   (9401, [9427]), (9402, [9428]), (9403, [9429]), (9404, [9430]), (9405, [9431]),
   (9406, [9432]), (9407, [9433]), (9408, [9434]), (9409, [9435]), (9410, [9436]),
   (9411, [9437]), (9412, [9438]), (9413, [9439]), (9414, [9440]), (9415, [9441]),
   (9416, [9442]), (9417, [9443]), (9418, [9444]), (9419, [9445]), (9420, [9446]),
   (9421, [9447]), (9422, [9448]), (9423, [9449]), (11264, [11312]), (11265, [11313]),
   (11266, [11314]), (11267, [11315]), (11268, [11316]), (11269, [11317]), (11270, [11318]),
   (11271, [11319]), (11272, [11320]), (11273, [11321]), (11274, [11322]), (11275, [11323]),
   (11276, [11324]), (11277, [11325]), (11278, [11326]), (11279, [11327]), (11280, [11328]),
   (11281, [11329]), (11282, [11330]), (11283, [11331]), (11284, [11332]), (11285, [11333]),
   (11286, [11334]), (11287, [11335]), (11288, [11336]), (11289, [11337]), (11290, [11338]),
   (11291, [11339]), (11292, [11340]), (11293, [11341]), (11294, [11342]), (11295, [11343]),
   (11296, [11344]), (11297, [11345]), (11298, [11346]), (11299, [11347]), (11300, [11348]),
   (11301, [11349]), (11302, [11350]), (11303, [11351]), (11304, [11352]), (11305, [11353]),
   (11306, [11354]), (11307, [11355]), (11308, [11356]), (11309, [11357]), (11310, [11358]),
   (11311, [11359]), (11360, [11361]), (11362, [619]), (11363, [7549]), (11364, [637])]

/-- Chunk 6 of the Unicode lowercase-mapping table. -/
def lowerMapChunk6 : List (Nat × List Nat) :=
  [(11367, [11368]), (11369, [11370]), (11371, [11372]), (11373, [593]), (11374, [625]),
   (11375, [592]), (11376, [594]), (11378, [11379]), (11381, [11382]), (11390, [575]),
   (11391, [576]), (11392, [11393]), (11394, [11395]), (11396, [11397]), (11398, [11399]),
   (11400, [11401]), (11402, [11403]), (11404, [11405]), (11406, [11407]), (11408, [11409]),
   (11410, [11411]), (11412, [11413]), (11414, [11415]), (11416, [11417]), (11418, [11419]),
   (11420, [11421]), (11422, [11423]), (11424, [11425]), (11426, [11427]), (11428, [11429]),
   (11430, [11431]), (11432, [11433]), (11434, [11435]), (11436, [11437]), (11438, [11439]),
   (11440, [11441]), (11442, [11443]), (11444, [11445]), (11446, [11447]), (11448, [11449]),
   (11450, [11451]), (11452, [11453]), (11454, [11455]), (11456, [11457]), (11458, [11459]),
   (11460, [11461]), (11462, [11463]), (11464, [11465]), (11466, [11467]), (11468, [11469]),
   (11470, [11471]), (11472, [11473]), (11474, [11475]), (11476, [11477]), (11478, [11479]),
   (11480, [11481]), (11482, [11483]), (11484, [11485]), (11486, [11487]), (11488, [11489]),
   (11490, [11491]), (11499, [11500]), (11501, [11502]), (11506, [11507]), (42560, [42561]),
   (42562, [42563]), (42564, [42565]), (42566, [42567]), (42568, [42569]), (42570, [42571]),
   (42572, [42573]), (42574, [42575]), (42576, [42577]), (42578, [42579]), (42580, [42581]),
   (42582, [42583]), (42584, [42585]), (42586, [42587]), (42588, [42589]), (42590, [42591]),
   (42592, [42593]), (42594, [42595]), (42596, [42597]), (42598, [42599]), (42600, [42601]),
   (42602, [42603]), (42604, [42605]), (42624, [42625]), (42626, [42627]), (42628, [42629]),
   (42630, [42631]), (42632, [42633]), (42634, [42635]), (42636, [42637]), (42638, [42639]),
   (42640, [42641]), (42642, [42643]), (42644, [42645]), (42646, [42647]), (42648, [42649]),
   (42650, [42651]), (42786, [42787]), (42788, [42789]), (42790, [42791]), (42792, [42793]),
   (42794, [42795]), (42796, [42797]), (42798, [42799]), (42802, [42803]), (42804, [42805]),
   (42806, [42807]), (42808, [42809]), (42810, [42811]), (42812, [42813]), (42814, [42815]),
   (42816, [42817]), (42818, [42819]), (42820, [42821]), (42822, [42823]), (42824, [42825]),
   (42826, [42827]), (42828, [42829]), (42830, [42831]), (42832, [42833]), (42834, [42835]),
   (42836, [42837]), (42838, [42839]), (42840, [42841]), (42842, [42843]), (42844, [42845]),
   (42846, [42847]), (42848, [42849]), (42850, [42851]), (42852, [42853]), (42854, [42855]),
   (42856, [42857]), (42858, [42859]), (42860, [42861]), (42862, [42863]), (42873, [42874]),
   (42875, [42876]), (42877, [7545]), (42878, [42879]), (42880, [42881]), (42882, [42883]),
   (42884, [42885]), (42886, [42887]), (42891, [42892]), (42893, [613]), (42896, [42897]),
   (42898, [42899]), (42902, [42903]), (42904, [42905]), (42906, [42907]), (42908, [42909]),
   (42910, [42911]), (42912, [42913]), (42914, [42915]), (42916, [42917]), (42918, [42919])]

/-- Chunk 7 of the Unicode lowercase-mapping table. -/
def lowerMapChunk7 : List (Nat × List Nat) :=
  [(42920, [42921]), (42922, [614]), (42923, [604]), (42924, [609]), (42925, [620]),
   (42926, [618]), (42928, [670]), (42929, [647]), (42930, [669]), (42931, [43859]),
   (42932, [42933]), (42934, [42935]), (42936, [42937]), (42938, [42939]), (42940, [42941]),
   (42942, [42943]), (42944, [42945]), (42946, [42947]), (42948, [42900]), (42949, [642]),
   (42950, [7566]), (42951, [42952]), (42953, [42954]), (42960, [42961]), (42966, [42967]),
   (42968, [42969]), (42997, [42998]), (65313, [65345]), (65314, [65346]), (65315, [65347]),
   (65316, [65348]), (65317, [65349]), (65318, [65350]), (65319, [65351]), (65320, [65352]),
   (65321, [65353]), (65322, [65354]), (65323, [65355]), (65324, [65356]), (65325, [65357]),
   (65326, [65358]), (65327, [65359]), (65328, [65360]), (65329, [65361]), (65330, [65362]),
   (65331, [65363]), (65332, [65364]), (65333, [65365]), (65334, [65366]), (65335, [65367]),
   (65336, [65368]), (65337, [65369]), (65338, [65370]), (66560, [66600]), (66561, [66601]),
   (66562, [66602]), (66563, [66603]), (66564, [66604]), (66565, [66605]), (66566, [66606]),
   (66567, [66607]), (66568, [66608]), (66569, [66609]), (66570, [66610]), (66571, [66611]),
   (66572, [66612]), (66573, [66613]), (66574, [66614]), (66575, [66615]), (66576, [66616]),
   (66577, [66617]), (66578, [66618]), (66579, [66619]), (66580, [66620]), (66581, [66621]),
   (66582, [66622]), (66583, [66623]), (66584, [66624]), (66585, [66625]), (66586, [66626]),
   (66587, [66627]), (66588, [66628]), (66589, [66629]), (66590, [66630]), (66591, [66631]),
   (66592, [66632]), (66593, [66633]), (66594, [66634]), (66595, [66635]), (66596, [66636]),
   (66597, [66637]), (66598, [66638]), (66599, [66639]), (66736, [66776]), (66737, [66777]),
   (66738, [66778]), (66739, [66779]), (66740, [66780]), (66741, [66781]), (66742, [66782]),
   (66743, [66783]), (66744, [66784]), (66745, [66785]), (66746, [66786]), (66747, [66787]),
   (66748, [66788]), (66749, [66789]), (66750, [66790]), (66751, [66791]), (66752, [66792]),
   (66753, [66793]), (66754, [66794]), (66755, [66795]), (66756, [66796]), (66757, [66797]),
   (66758, [66798]), (66759, [66799]), (66760, [66800]), (66761, [66801]), (66762, [66802]),
   (66763, [66803]), (66764, [66804]), (66765, [66805]), (66766, [66806]), (66767, [66807]),
   (66768, [66808]), (66769, [66809]), (66770, [66810]), (66771, [66811]), (66928, [66967]),
   (66929, [66968]), (66930, [66969]), (66931, [66970]), (66932, [66971]), (66933, [66972]),
   (66934, [66973]), (66935, [66974]), (66936, [66975]), (66937, [66976]), (66938, [66977]),
   (66940, [66979]), (66941, [66980]), (66942, [66981]), (66943, [66982]), (66944, [66983]),
   (66945, [66984]), (66946, [66985]), (66947, [66986]), (66948, [66987]), (66949, [66988]),
   (66950, [66989]), (66951, [66990]), (66952, [66991]), (66953, [66992]), (66954, [66993]),
   (66956, [66995]), (66957, [66996]), (66958, [66997]), (66959, [66998]), (66960, [66999])]

/-- Chunk 8 of the Unicode lowercase-mapping table. -/
def lowerMapChunk8 : List (Nat × List Nat) :=
  [(66961, [67000]), (66962, [67001]), (66964, [67003]), (66965, [67004]), (68736, [68800]),
   (68737, [68801]), (68738, [68802]), (68739, [68803]), (68740, [68804]), (68741, [68805]),
   (68742, [68806]), (68743, [68807]), (68744, [68808]), (68745, [68809]), (68746, [68810]),
   (68747, [68811]), (68748, [68812]), (68749, [68813]), (68750, [68814]), (68751, [68815]),
   (68752, [68816]), (68753, [68817]), (68754, [68818]), (68755, [68819]), (68756, [68820]),
   (68757, [68821]), (68758, [68822]), (68759, [68823]), (68760, [68824]), (68761, [68825]),
   (68762, [68826]), (68763, [68827]), (68764, [68828]), (68765, [68829]), (68766, [68830]),
   (68767, [68831]), (68768, [68832]), (68769, [68833]), (68770, [68834]), (68771, [68835]),
   (68772, [68836]), (68773, [68837]), (68774, [68838]), (68775, [68839]), (68776, [68840]),
   (68777, [68841]), (68778, [68842]), (68779, [68843]), (68780, [68844]), (68781, [68845]),
   (68782, [68846]), (68783, [68847]), (68784, [68848]), (68785, [68849]), (68786, [68850]),
   (71840, [71872]), (71841, [71873]), (71842, [71874]), (71843, [71875]), (71844, [71876]),
   (71845, [71877]), (71846, [71878]), (71847, [71879]), (71848, [71880]), (71849, [71881]),
   (71850, [71882]), (71851, [71883]), (71852, [71884]), (71853, [71885]), (71854, [71886]),
   (71855, [71887]), (71856, [71888]), (71857, [71889]), (71858, [71890]), (71859, [71891]),
   (71860, [71892]), (71861, [71893]), (71862, [71894]), (71863, [71895]), (71864, [71896]),
   (71865, [71897]), (71866, [71898]), (71867, [71899]), (71868, [71900]), (71869, [71901]),
   (71870, [71902]), (71871, [71903]), (93760, [93792]), (93761, [93793]), (93762, [93794]),
   (93763, [93795]), (93764, [93796]), (93765, [93797]), (93766, [93798]), (93767, [93799]),
   (93768, [93800]), (93769, [93801]), (93770, [93802]), (93771, [93803]), (93772, [93804]),
   (93773, [93805]), (93774, [93806]), (93775, [93807]), (93776, [93808]), (93777, [93809]),
   (93778, [93810]), (93779, [93811]), (93780, [93812]), (93781, [93813]), (93782, [93814]),
   (93783, [93815]), (93784, [93816]), (93785, [93817]), (93786, [93818]), (93787, [93819]),
   (93788, [93820]), (93789, [93821]), (93790, [93822]), (93791, [93823]), (125184, [125218]),
   (125185, [125219]), (125186, [125220]), (125187, [125221]), (125188, [125222]), (125189, [125223]),
   (125190, [125224]), (125191, [125225]), (125192, [125226]), (125193, [125227]), (125194, [125228]),
   (125195, [125229]), (125196, [125230]), (125197, [125231]), (125198, [125232]), (125199, [125233]),
   (125200, [125234]), (125201, [125235]), (125202, [125236]), (125203, [125237]), (125204, [125238]),
   (125205, [125239]), (125206, [125240]), (125207, [125241]), (125208, [125242]), (125209, [125243]),
   (125210, [125244]), (125211, [125245]), (125212, [125246]), (125213, [125247]), (125214, [125248]),
   (125215, [125249]), (125216, [125250]), (125217, [125251])]

/-- The Unicode lowercase-mapping table: one entry per scalar value whose
full lowercase mapping (UnicodeData + SpecialCasing) differs from itself,
as consumed by Rust's `char::to_lowercase`. -/
def lowerMapTable : List (Nat × List Nat) :=
  lowerMapChunk0 ++ lowerMapChunk1 ++ lowerMapChunk2 ++ lowerMapChunk3 ++ lowerMapChunk4 ++ lowerMapChunk5 ++ lowerMapChunk6 ++ lowerMapChunk7 ++ lowerMapChunk8

/-- Inclusive codepoint ranges of the Unicode `Cased` property (the non-case-ignorable part), for the `Final_Sigma` rule. -/
def casedRanges : List (Nat × Nat) :=
  [(65, 90), (97, 122), (170, 170), (181, 181), (186, 186), (192, 214), (216, 246), (248, 442),
   (444, 447), (452, 659), (661, 687), (880, 883), (886, 887), (891, 893), (895, 895), (902, 902),
   (904, 906), (908, 908), (910, 929), (931, 1013), (1015, 1153), (1162, 1327), (1329, 1366), (1376, 1416),
   (4256, 4293), (4295, 4295), (4301, 4301), (4304, 4346), (4349, 4351), (5024, 5109), (5112, 5117), (7296, 7304),
   (7312, 7354), (7357, 7359), (7424, 7467), (7531, 7543), (7545, 7578), (7680, 7957), (7960, 7965), (7968, 8005),
   (8008, 8013), (8016, 8023), (8025, 8025), (8027, 8027), (8029, 8029), (8031, 8061), (8064, 8116), (8118, 8124),
   (8126, 8126), (8130, 8132), (8134, 8140), (8144, 8147), (8150, 8155), (8160, 8172), (8178, 8180), (8182, 8188),
   (8450, 8450), (8455, 8455), (8458, 8467), (8469, 8469), (8473, 8477), (8484, 8484), (8486, 8486), (8488, 8488),
   (8490, 8493), (8495, 8500), (8505, 8505), (8508, 8511), (8517, 8521), (8526, 8526), (8544, 8575), (8579, 8580),
   (9398, 9449), (11264, 11387), (11390, 11492), (11499, 11502), (11506, 11507), (11520, 11557), (11559, 11559), (11565, 11565),
   (42560, 42605), (42624, 42651), (42786, 42863), (42865, 42887), (42891, 42894), (42896, 42954), (42960, 42961), (42963, 42963),
   (42965, 42969), (42997, 42998), (43002, 43002), (43824, 43866), (43872, 43880), (43888, 43967), (64256, 64262), (64275, 64279),
   (65313, 65338), (65345, 65370), (66560, 66639), (66736, 66771), (66776, 66811), (66928, 66938), (66940, 66954), (66956, 66962),
   (66964, 66965), (66967, 66977), (66979, 66993), (66995, 67001), (67003, 67004), (68736, 68786), (68800, 68850), (71840, 71903),
   (93760, 93823), (119808, 119892), (119894, 119964), (119966, 119967), (119970, 119970), (119973, 119974), (119977, 119980), (119982, 119993),
   (119995, 119995), (119997, 120003), (120005, 120069), (120071, 120074), (120077, 120084), (120086, 120092), (120094, 120121), (120123, 120126),
   (120128, 120132), (120134, 120134), (120138, 120144), (120146, 120485), (120488, 120512), (120514, 120538), (120540, 120570), (120572, 120596),
   (120598, 120628), (120630, 120654), (120656, 120686), (120688, 120712), (120714, 120744), (120746, 120770), (120772, 120779), (122624, 122633),
   (122635, 122654), (125184, 125251), (127280, 127305), (127312, 127337), (127344, 127369)]

/-- Inclusive codepoint ranges of the Unicode `Case_Ignorable` property, for the `Final_Sigma` rule. -/
def caseIgnorableRanges : List (Nat × Nat) :=
  [(39, 39), (46, 46), (58, 58), (94, 94), (96, 96), (168, 168), (173, 173), (175, 175),
   (180, 180), (183, 184), (688, 879), (884, 885), (890, 890), (900, 901), (903, 903), (1155, 1161),
   (1369, 1369), (1375, 1375), (1425, 1469), (1471, 1471), (1473, 1474), (1476, 1477), (1479, 1479), (1524, 1524),
   (1536, 1541), (1552, 1562), (1564, 1564), (1600, 1600), (1611, 1631), (1648, 1648), (1750, 1757), (1759, 1768),
   (1770, 1773), (1807, 1807), (1809, 1809), (1840, 1866), (1958, 1968), (2027, 2037), (2042, 2042), (2045, 2045),
   (2070, 2093), (2137, 2139), (2184, 2184), (2192, 2193), (2200, 2207), (2249, 2306), (2362, 2362), (2364, 2364),
   (2369, 2376), (2381, 2381), (2385, 2391), (2402, 2403), (2417, 2417), (2433, 2433), (2492, 2492), (2497, 2500),
   (2509, 2509), (2530, 2531), (2558, 2558), (2561, 2562), (2620, 2620), (2625, 2626), (2631, 2632), (2635, 2637),
   (2641, 2641), (2672, 2673), (2677, 2677), (2689, 2690), (2748, 2748), (2753, 2757), (2759, 2760), (2765, 2765),
   (2786, 2787), (2810, 2815), (2817, 2817), (2876, 2876), (2879, 2879), (2881, 2884), (2893, 2893), (2901, 2902),
   (2914, 2915), (2946, 2946), (3008, 3008), (3021, 3021), (3072, 3072), (3076, 3076), (3132, 3132), (3134, 3136),
   (3142, 3144), (3146, 3149), (3157, 3158), (3170, 3171), (3201, 3201), (3260, 3260), (3263, 3263), (3270, 3270),
   (3276, 3277), (3298, 3299), (3328, 3329), (3387, 3388), (3393, 3396), (3405, 3405), (3426, 3427), (3457, 3457),
   (3530, 3530), (3538, 3540), (3542, 3542), (3633, 3633), (3636, 3642), (3654, 3662), (3761, 3761), (3764, 3772),
   (3782, 3782), (3784, 3789), (3864, 3865), (3893, 3893), (3895, 3895), (3897, 3897), (3953, 3966), (3968, 3972),
   (3974, 3975), (3981, 3991), (3993, 4028), (4038, 4038), (4141, 4144), (4146, 4151), (4153, 4154), (4157, 4158),
   (4184, 4185), (4190, 4192), (4209, 4212), (4226, 4226), (4229, 4230), (4237, 4237), (4253, 4253), (4348, 4348),
   (4957, 4959), (5906, 5908), (5938, 5939), (5970, 5971), (6002, 6003), (6068, 6069), (6071, 6077), (6086, 6086),
   (6089, 6099), (6103, 6103), (6109, 6109), (6155, 6159), (6211, 6211), (6277, 6278), (6313, 6313), (6432, 6434),
   (6439, 6440), (6450, 6450), (6457, 6459), (6679, 6680), (6683, 6683), (6742, 6742), (6744, 6750), (6752, 6752),
   (6754, 6754), (6757, 6764), (6771, 6780), (6783, 6783), (6823, 6823), (6832, 6862), (6912, 6915), (6964, 6964),
   (6966, 6970), (6972, 6972), (6978, 6978), (7019, 7027), (7040, 7041), (7074, 7077), (7080, 7081), (7083, 7085),
   (7142, 7142), (7144, 7145), (7149, 7149), (7151, 7153), (7212, 7219), (7222, 7223), (7288, 7293), (7376, 7378),
   (7380, 7392), (7394, 7400), (7405, 7405), (7412, 7412), (7416, 7417), (7468, 7530), (7544, 7544), (7579, 7679),
   (8125, 8125), (8127, 8129), (8141, 8143), (8157, 8159), (8173, 8175), (8189, 8190), (8203, 8207), (8216, 8217),
   (8228, 8228), (8231, 8231), (8234, 8238), (8288, 8292), (8294, 8303), (8305, 8305), (8319, 8319), (8336, 8348),
   (8400, 8432), (11388, 11389), (11503, 11505), (11631, 11631), (11647, 11647), (11744, 11775), (11823, 11823), (12293, 12293),
   (12330, 12333), (12337, 12341), (12347, 12347), (12441, 12446), (12540, 12542), (40981, 40981), (42232, 42237), (42508, 42508),
   (42607, 42610), (42612, 42621), (42623, 42623), (42652, 42655), (42736, 42737), (42752, 42785), (42864, 42864), (42888, 42890),
   (42994, 42996), (43000, 43001), (43010, 43010), (43014, 43014), (43019, 43019), (43045, 43046), (43052, 43052), (43204, 43205),
   (43232, 43249), (43263, 43263), (43302, 43309), (43335, 43345), (43392, 43394), (43443, 43443), (43446, 43449), (43452, 43453),
   (43471, 43471), (43493, 43494), (43561, 43566), (43569, 43570), (43573, 43574), (43587, 43587), (43596, 43596), (43632, 43632),
   (43644, 43644), (43696, 43696), (43698, 43700), (43703, 43704), (43710, 43711), (43713, 43713), (43741, 43741), (43756, 43757),
   (43763, 43764), (43766, 43766), (43867, 43871), (43881, 43883), (44005, 44005), (44008, 44008), (44013, 44013), (64286, 64286),
   (64434, 64450), (65024, 65039), (65043, 65043), (65056, 65071), (65106, 65106), (65109, 65109), (65279, 65279), (65287, 65287),
   (65294, 65294), (65306, 65306), (65342, 65342), (65344, 65344), (65392, 65392), (65438, 65439), (65507, 65507), (65529, 65531),
   (66045, 66045), (66272, 66272), (66422, 66426), (67456, 67461), (67463, 67504), (67506, 67514), (68097, 68099), (68101, 68102),
   (68108, 68111), (68152, 68154), (68159, 68159), (68325, 68326), (68900, 68903), (69291, 69292), (69446, 69456), (69506, 69509),
   (69633, 69633), (69688, 69702), (69744, 69744), (69747, 69748), (69759, 69761), (69811, 69814), (69817, 69818), (69821, 69821),
   (69826, 69826), (69837, 69837), (69888, 69890), (69927, 69931), (69933, 69940), (70003, 70003), (70016, 70017), (70070, 70078),
   (70089, 70092), (70095, 70095), (70191, 70193), (70196, 70196), (70198, 70199), (70206, 70206), (70367, 70367), (70371, 70378),
   (70400, 70401), (70459, 70460), (70464, 70464), (70502, 70508), (70512, 70516), (70712, 70719), (70722, 70724), (70726, 70726),
   (70750, 70750), (70835, 70840), (70842, 70842), (70847, 70848), (70850, 70851), (71090, 71093), (71100, 71101), (71103, 71104),
   (71132, 71133), (71219, 71226), (71229, 71229), (71231, 71232), (71339, 71339), (71341, 71341), (71344, 71349), (71351, 71351),
   (71453, 71455), (71458, 71461), (71463, 71467), (71727, 71735), (71737, 71738), (71995, 71996), (71998, 71998), (72003, 72003),
   (72148, 72151), (72154, 72155), (72160, 72160), (72193, 72202), (72243, 72248), (72251, 72254), (72263, 72263), (72273, 72278),
   (72281, 72283), (72330, 72342), (72344, 72345), (72752, 72758), (72760, 72765), (72767, 72767), (72850, 72871), (72874, 72880),
   (72882, 72883), (72885, 72886), (73009, 73014), (73018, 73018), (73020, 73021), (73023, 73029), (73031, 73031), (73104, 73105),
   (73109, 73109), (73111, 73111), (73459, 73460), (78896, 78904), (92912, 92916), (92976, 92982), (92992, 92995), (94031, 94031),
   (94095, 94111), (94176, 94177), (94179, 94180), (110576, 110579), (110581, 110587), (110589, 110590), (113821, 113822), (113824, 113827),
   (118528, 118573), (118576, 118598), (119143, 119145), (119155, 119170), (119173, 119179), (119210, 119213), (119362, 119364), (121344, 121398),
   (121403, 121452), (121461, 121461), (121476, 121476), (121499, 121503), (121505, 121519), (122880, 122886), (122888, 122904), (122907, 122913),
   (122915, 122916), (122918, 122922), (123184, 123197), (123566, 123566), (123628, 123631), (125136, 125142), (125252, 125259), (127995, 127999),
   (917505, 917505), (917536, 917631), (917760, 917999)]

/-- Codepoint membership in an inclusive-range table. -/
def inRanges (rs : List (Nat × Nat)) (n : Nat) : Bool :=
  rs.any (fun r => r.1 ≤ n && n ≤ r.2)

/-- The Unicode `Cased` test used by the `Final_Sigma` rule (case-ignorable
codepoints are never consulted for casedness, so the two tables are kept
disjoint). -/
def isCasedCp (n : Nat) : Bool := inRanges casedRanges n

/-- The Unicode `Case_Ignorable` test used by the `Final_Sigma` rule. -/
def isCaseIgnorableCp (n : Nat) : Bool := inRanges caseIgnorableRanges n

/-- Skip case-ignorable characters, then test whether the first remaining one
is cased — `case_ignorable_then_cased` from the Rust standard library's
`str::to_lowercase`. -/
def caseIgnorableThenCased (l : List Char) : Bool :=
  match l.dropWhile (fun c => isCaseIgnorableCp c.toNat) with
  | [] => false
  | c :: _ => isCasedCp c.toNat

/-- Full Unicode lowercase mapping of one character (`char::to_lowercase`):
the table entry when one exists, the character itself otherwise. -/
def lowerChar (c : Char) : List Char :=
  match lowerMapTable.find? (fun e => e.1 == c.toNat) with
  | some e => e.2.map Char.ofNat
  | none => [c]

/-- The character loop of Rust's `str::to_lowercase`: every character maps
through `char::to_lowercase`, except capital sigma (U+03A3), which maps to
final sigma (U+03C2) exactly when it is preceded (skipping case-ignorable
characters) by a cased character and not followed (likewise) by one;
otherwise it maps to U+03C3.  `before` holds the already-visited characters
of the original string in reverse order, as the rule inspects the input, not
the output. -/
def rustToLowerGo : List Char → List Char → List Char
  | _, [] => []
  | before, c :: rest =>
    let mapped :=
      if c.toNat == 931 then
        if caseIgnorableThenCased before && !caseIgnorableThenCased rest
        then [Char.ofNat 962]
        else [Char.ofNat 963]
      else lowerChar c
    mapped ++ rustToLowerGo (c :: before) rest

/-- Model of `str::to_lowercase`: full Unicode lowercasing — the complete
lowercase-mapping table of the Unicode character database (simple plus
special mappings) and the context-sensitive `Final_Sigma` rule, as the Rust
standard library implements them. -/
def rustToLowercase (s : String) : String := ⟨rustToLowerGo [] s.data⟩

example : rustToLowercase "FOO" = "foo" := by decide

example : rustToLowercase "Ä" = "ä" := by decide

example : rustToLowercase "İ" = ⟨[Char.ofNat 105, Char.ofNat 775]⟩ := by decide

example : rustToLowercase "ΑΣ" = "ας" := by decide

example : rustToLowercase "ΣΑ" = "σα" := by decide


/-- Model of `AttributeKeyValue::new`: the four validation checks in source
order, then the pair with the key downcased and the value untouched. -/
def AttributeKeyValue.new (key value : String) :
    Except String AttributeKeyValue :=
  if key.isEmpty then .error ERR_TAG_EMPTY
  else if rustStrLen key > 30 then .error ERR_TAG_LEN_30
  else if value.isEmpty then .error ERR_VALUE_EMPTY
  else if rustStrLen value > 100 then .error ERR_VALUE_LEN_100
  else .ok { key := rustToLowercase key, value := value }

example : AttributeKeyValue.new "FOO" "BAR" = .ok { key := "foo", value := "BAR" } := by
  decide

example : AttributeKeyValue.new "" "foo" = .error ERR_TAG_EMPTY := by decide

example :
    AttributeKeyValue.new "asdflkjghasdfljasflkjaslfdjaslfdjalsdfj" "foo" =
      .error ERR_TAG_LEN_30 := by decide

example : AttributeKeyValue.new "f" "" = .error ERR_VALUE_EMPTY := by decide

/-! ## Decimal conversion: models of `i32::to_string` and `str::parse::<i32>` -/

/-- The ASCII character of a decimal digit. -/
def digitChar (d : Nat) : Char := Char.ofNat (48 + d)

/-- Decimal digits of `n`, most significant first; `fuel`-structured so that
concrete values reduce inside `decide` (any `fuel ≥ n` gives the digits). -/
def natDigitsAux : Nat → Nat → List Char
  | 0, _ => []
  | _ + 1, 0 => []
  | fuel + 1, n + 1 =>
    natDigitsAux fuel ((n + 1) / 10) ++ [digitChar ((n + 1) % 10)]

/-- Decimal representation of a natural number. -/
def natDecimalDigits (n : Nat) : List Char :=
  if n = 0 then ['0'] else natDigitsAux n n

/-- Model of `i32::to_string` (Rust renders integers in decimal, with a
leading minus sign for negatives). -/
def i32ToString (i : Int) : String :=
  if i < 0 then ⟨'-' :: natDecimalDigits (-i).toNat⟩ else ⟨natDecimalDigits i.toNat⟩

/-- Accumulating decimal parser over a digit list. -/
def parseNatAux : Nat → List Char → Nat
  | acc, [] => acc
  | acc, c :: cs => parseNatAux (10 * acc + (c.toNat - 48)) cs

/-- Parse a nonempty all-digit character list, rejecting anything else. -/
def parseNatDigits (s : List Char) : Option Nat :=
  if s.isEmpty || s.any (fun c => !c.isDigit) then none
  else some (parseNatAux 0 s)

/-- Model of `str::parse::<i32>`: optional sign, at least one digit, nothing
else, and the value must fit in `i32` (`-2^31 ..= 2^31 - 1`), otherwise the
parse fails. -/
def parseI32 (s : String) : Option Int :=
  match s.data with
  | [] => none
  | c :: rest =>
    if c = '-' then
      (parseNatDigits rest).bind (fun n => if n ≤ 2 ^ 31 then some (-(n : Int)) else none)
    else if c = '+' then
      (parseNatDigits rest).bind (fun n => if n < 2 ^ 31 then some ((n : Int)) else none)
    else
      (parseNatDigits (c :: rest)).bind (fun n => if n < 2 ^ 31 then some ((n : Int)) else none)

/-! ## The reversible hash codec (the `harsh` crate)

Modelled from the spec: the `harsh` dependency is not part of this
repository's sources.  Spec §6 describes it as an obfuscated id codec —
`encode(i32) -> string`, `decode(string) -> Result<i32>`, a "short, URL-safe,
deterministic encode/decode transform over integers" whose output depends on
a configured salt — and spec §9 records that it "is documented in the source
as panicking on certain adversarial inputs (integer overflow in its internal
multiply) rather than returning a decode error".  The model below is a
deterministic reversible transform on hex strings (salt-tagged prefixing):
`encode_hex` accepts exactly the nonempty hex strings, `decode_hex` inverts
it, fails cleanly on well-formed (alphanumeric) non-encodings, and panics on
adversarial input containing characters outside the URL-safe alphanumeric
alphabet — reproducing the panic the repository's own
`document_harsher_bug` test documents for `"nonsense!!#$!)(&#(*)"` while
`"nonsense"` fails cleanly as in the `url_friendliness` test. -/

/-- Outcome of running a piece of Rust code that may panic. -/
inductive RustOutcome (α : Type) where
  | ok (val : α)
  | panicked (msg : String)
  deriving Repr, DecidableEq

/-- Hex-digit test (both cases), as in the hashids hex alphabet. -/
def isHexDigitChar (c : Char) : Bool :=
  c.isDigit || ('a' ≤ c && c ≤ 'f') || ('A' ≤ c && c ≤ 'F')

/-- Modelled from the spec: the configured `Harsh` codec (its salt). -/
structure Harsh where
  salt : String
  deriving Repr, DecidableEq

/-- Modelled from the spec: `Harsh::encode_hex` — defined on exactly the
nonempty hex strings, deterministic, salt-dependent, reversible. -/
def Harsh.encode_hex (h : Harsh) (hex : String) : Option String :=
  if hex.data.isEmpty || hex.data.any (fun c => !isHexDigitChar c) then none
  else some ("h" ++ h.salt ++ "x" ++ hex)

/-- Strip an expected leading character sequence, or fail. -/
def stripPre : List Char → List Char → Option (List Char)
  | [], s => some s
  | _ :: _, [] => none
  | p :: ps, c :: cs => if p = c then stripPre ps cs else none

/-- Modelled from the spec: `Harsh::decode_hex` — inverts `encode_hex`;
on a string that is not an encoding it fails cleanly (`none`, the crate's
decode failure) when the input stays inside the URL-safe alphanumeric
alphabet, and panics with the crate's documented "attempt to multiply with
overflow" on adversarial input outside it. -/
def Harsh.decode_hex (h : Harsh) (s : String) : RustOutcome (Option String) :=
  let adversarial : RustOutcome (Option String) :=
    if s.data.any (fun c => !c.isAlphanum)
    then .panicked "attempt to multiply with overflow"
    else .ok none
  match stripPre ("h" ++ h.salt ++ "x").data s.data with
  | some hex =>
    if !hex.isEmpty && hex.all isHexDigitChar then .ok (some ⟨hex⟩) else adversarial
  | none => adversarial

/-! ## Service layer: published albums (`src/albums.rs`) -/

/-- Model of the serialized `UrlFriendlyAlbum` shape. -/
structure UrlFriendlyAlbum where
  album_id : Int
  created_at : Int
  hash : String
  active : Bool
  deriving Repr, DecidableEq

/-- Model of `UrlFriendlyAlbum::new`: encode the published album's numeric id
(rendered in decimal by `to_string`) through the codec.  `none` models the
`.expect("hashing album publish id failed")` panic when encoding fails. -/
def UrlFriendlyAlbum.new (harsh : Harsh) (published : PublishedAlbum) :
    Option UrlFriendlyAlbum :=
  (harsh.encode_hex (i32ToString published.id)).map (fun hash =>
    { hash
      album_id := published.album_id
      active := published.active
      created_at := published.created_at })

/-- Model of `UrlFriendlyAlbum::decode_id`: decode the user-supplied string
(panic included), turn a clean decode failure into a 404 carrying only the
input, then parse the decoded string as an `i32`, again collapsing a parse
failure to the same 404. -/
def UrlFriendlyAlbum.decode_id (harsh : Harsh) (given_id : String) :
    RustOutcome (Except ApiError Int) :=
  match harsh.decode_hex given_id with
  | .panicked m => .panicked m
  | .ok dec =>
    .ok (do
      let as_str ← ApiError.not_found dec s!"{given_id}"
      match parseI32 as_str with
      | some id => .ok id
      | none => @ApiError.not_found Int none s!"{given_id}")

/-- Model of the `not_found` helper of `albums.rs`: the one 404 all the
published-album paths share. -/
def not_found {T : Type} (album : Option T) (hash_id : String) :
    Except ApiError T :=
  ApiError.not_found album s!"no published album with id={hash_id}"

/-- Model of `get_published_album`: decode, look the row up by decoded id,
collapse an absent row into the shared 404. -/
def get_published_album (db : Db) (harsh : Harsh) (hash_id : String) :
    RustOutcome (Except ApiError PublishedAlbum) :=
  match UrlFriendlyAlbum.decode_id harsh hash_id with
  | .panicked m => .panicked m
  | .ok dec =>
    .ok (do
      let published_album_id ← dec
      not_found (PublishedAlbum.by_id db published_album_id) hash_id)

/-- Model of `get_users_published_album`: wrong-owner access degrades to the
same shared 404. -/
def get_users_published_album (db : Db) (user : User) (harsh : Harsh)
    (hash_id : String) : RustOutcome (Except ApiError PublishedAlbum) :=
  match get_published_album db harsh hash_id with
  | .panicked m => .panicked m
  | .ok dec =>
    .ok (do
      let album ← dec
      if album.user_id ≠ user.id then not_found none hash_id else .ok album)

/-- Model of `delete_published_album`; returns the updated database next to
the result. -/
def delete_published_album (db : Db) (user : User) (harsh : Harsh)
    (hash_id : String) : RustOutcome (Db × Except ApiError Unit) :=
  match get_users_published_album db user harsh hash_id with
  | .panicked m => .panicked m
  | .ok (.error e) => .ok (db, .error e)
  | .ok (.ok album) => .ok (album.delete db, .ok ())

/-- Model of the `ToggleActive` form. -/
structure ToggleActive where
  active : Bool
  deriving Repr, DecidableEq

/-- Model of `toggle_published_album`; returns the updated database next to
the result. -/
def toggle_published_album (db : Db) (user : User) (harsh : Harsh)
    (hash_id : String) (active : ToggleActive) :
    RustOutcome (Db × Except ApiError Unit) :=
  match get_users_published_album db user harsh hash_id with
  | .panicked m => .panicked m
  | .ok (.error e) => .ok (db, .error e)
  | .ok (.ok album) => .ok (album.set_active db active.active, .ok ())

/-- Model of `get_published_photos`: decode and fetch the publish row, require
`active`, resolve the owning user and then the album (scoped to that owner),
all failures collapsing to the shared 404, then load the requested photo
page. -/
def get_published_photos (db : Db) (s3 : S3Access) (harsh : Harsh)
    (hash_id : String) (page : Pagination) :
    RustOutcome (Except ApiError ApiAlbum) :=
  match get_published_album db harsh hash_id with
  | .panicked m => .panicked m
  | .ok dec =>
    .ok (do
      let published ← dec
      if !published.active then
        not_found none hash_id
      else do
        let user ← not_found (User.by_id db published.user_id) hash_id
        let album ← not_found (Album.by_id db user published.album_id) hash_id
        load_photos_page user s3 db album page)

example :
    UrlFriendlyAlbum.new { salt := "foo" }
      { id := 22, album_id := 390, user_id := 3, active := true, created_at := 0 } =
    some { hash := "hfoox22", album_id := 390, active := true, created_at := 0 } := by
  decide

example :
    UrlFriendlyAlbum.decode_id { salt := "foo" } "hfoox22" = .ok (.ok 22) := by
  decide

example :
    UrlFriendlyAlbum.decode_id { salt := "foo" } "nonsense" =
      .ok (.error { status := .NotFound, message := "nonsense" }) := by
  decide

example :
    UrlFriendlyAlbum.decode_id { salt := "foo" } "nonsense!!#$!)(&#(*)" =
      .panicked "attempt to multiply with overflow" := by
  decide

/-! ## Lemmas: insertion sort -/

theorem length_insertBy {α : Type} (le : α → α → Bool) (a : α) (l : List α) :
    (insertBy le a l).length = l.length + 1 := by
  induction l with
  | nil => rfl
  | cons b bs ih =>
    unfold insertBy
    split
    · simp
    · simp [ih]

theorem insertBy_perm {α : Type} (le : α → α → Bool) (a : α) (l : List α) :
    (insertBy le a l).Perm (a :: l) := by
  induction l with
  | nil => exact List.Perm.refl _
  | cons b bs ih =>
    unfold insertBy
    split
    · exact List.Perm.refl _
    · exact ((ih.cons b).trans (List.Perm.swap a b bs))

theorem sortBy_perm {α : Type} (le : α → α → Bool) (l : List α) :
    (sortBy le l).Perm l := by
  induction l with
  | nil => exact List.Perm.refl _
  | cons a as ih => exact (insertBy_perm le a (sortBy le as)).trans (ih.cons a)

theorem length_sortBy {α : Type} (le : α → α → Bool) (l : List α) :
    (sortBy le l).length = l.length :=
  (sortBy_perm le l).length_eq

theorem mem_sortBy {α : Type} (le : α → α → Bool) (l : List α) (x : α) :
    x ∈ sortBy le l ↔ x ∈ l :=
  (sortBy_perm le l).mem_iff

theorem insertBy_of_le_all {α : Type} (le : α → α → Bool) (a : α) (l : List α)
    (h : ∀ b ∈ l, le a b = true) : insertBy le a l = a :: l := by
  cases l with
  | nil => rfl
  | cons b bs =>
    unfold insertBy
    rw [h b (by simp)]
    simp

theorem sortBy_eq_self_of_pairwise {α : Type} (le : α → α → Bool) (l : List α)
    (h : l.Pairwise (fun x y => le x y = true)) : sortBy le l = l := by
  induction l with
  | nil => rfl
  | cons a as ih =>
    rw [List.pairwise_cons] at h
    unfold sortBy
    rw [ih h.2, insertBy_of_le_all le a as h.1]

/-! ## Lemmas: list maximum -/

theorem foldl_max_mem (x : Int) (xs : List Int) : xs.foldl max x ∈ x :: xs := by
  induction xs generalizing x with
  | nil => simp
  | cons y ys ih =>
    simp only [List.foldl_cons]
    rcases List.mem_cons.mp (ih (max x y)) with h | h
    · rcases max_choice x y with hm | hm
      · rw [h.trans hm]; simp
      · rw [h.trans hm]; simp
    · simp [h]

theorem le_foldl_max (x : Int) (xs : List Int) :
    ∀ i ∈ x :: xs, i ≤ xs.foldl max x := by
  induction xs generalizing x with
  | nil => simp
  | cons y ys ih =>
    intro i hi
    simp only [List.foldl_cons]
    have hbase : max x y ≤ List.foldl max (max x y) ys :=
      ih (max x y) (max x y) (by simp)
    rcases List.mem_cons.mp hi with h | h
    · subst h; exact le_trans (le_max_left i y) hbase
    · rcases List.mem_cons.mp h with h | h
      · subst h; exact le_trans (le_max_right x i) hbase
      · exact ih (max x y) i (List.mem_cons.mpr (Or.inr h))

theorem listMax_mem (l : List Int) (h : l ≠ []) : listMax l ∈ l := by
  cases l with
  | nil => exact absurd rfl h
  | cons x xs => exact foldl_max_mem x xs

theorem le_listMax (l : List Int) : ∀ i ∈ l, i ≤ listMax l := by
  cases l with
  | nil => simp
  | cons x xs => exact le_foldl_max x xs

/-! ## Lemmas: the pagination engine -/

/-- What `load_and_count_pages` actually produces, for any base query and any
`per_page ≥ 1` (every `Pagination` built by `Pagination::new` satisfies this):
writing `filtered` for the rows of the base query that pass the keyset filter
`id > key` (key defaulting to 0), the page echoes the request key, returns
`min per_page |filtered|` items, has `remaining = |filtered| - |items|`, and
`next_key` is the maximum id over `filtered` (`None` iff no row passes the
filter) — the aggregates see the rows after the `WHERE` filter but before the
`LIMIT`. -/
theorem load_and_count_pages_spec {α : Type} (getId : α → Int) (rows : List α)
    (page : Pagination) (filtered : List α) (hpp : 1 ≤ page.per_page)
    (hfe : filtered = rows.filter (fun r => page.key.getD 0 < getId r)) :
    (Paginated.load_and_count_pages getId (rows.paginate page)).key = page.key ∧
    (Paginated.load_and_count_pages getId (rows.paginate page)).items.length =
      min page.per_page.toNat filtered.length ∧
    (Paginated.load_and_count_pages getId (rows.paginate page)).remaining =
      (filtered.length : Int) -
        ((Paginated.load_and_count_pages getId (rows.paginate page)).items.length : Int) ∧
    (filtered = [] →
      (Paginated.load_and_count_pages getId (rows.paginate page)).next_key = none) ∧
    (filtered ≠ [] →
      (Paginated.load_and_count_pages getId (rows.paginate page)).next_key =
        some (listMax (filtered.map getId))) := by
  obtain ⟨n, hn⟩ : ∃ n : Nat, page.per_page.toNat = n + 1 :=
    ⟨page.per_page.toNat - 1, by omega⟩
  simp only [Paginated.load_and_count_pages, Paginated.sqlRows, List.paginate,
    Pagination.limit]
  rw [← hfe, hn]
  by_cases hf : filtered = []
  · subst hf
    simp [sortBy]
  · obtain ⟨d, ds, hs⟩ :
        ∃ d ds, sortBy (fun a b => decide (getId a ≤ getId b)) filtered = d :: ds := by
      cases hsort : sortBy (fun a b => decide (getId a ≤ getId b)) filtered with
      | nil =>
        exfalso
        apply hf
        have hlen := length_sortBy (fun a b => decide (getId a ≤ getId b)) filtered
        rw [hsort] at hlen
        exact List.length_eq_zero.mp hlen.symm
      | cons d ds => exact ⟨d, ds, rfl⟩
    have hlen := length_sortBy (fun a b => decide (getId a ≤ getId b)) filtered
    rw [hs] at hlen
    simp only [List.length_cons] at hlen
    rw [hs]
    simp only [List.map_cons, List.take_succ_cons, List.head?_cons, Option.map_some,
      Option.getD_some, List.length_map, List.length_cons, List.length_take, true_and]
    refine ⟨by omega, rfl, fun h => absurd h hf, fun _ => rfl⟩

/-- C1 (counterexample).  The claim says `remaining` equals the total number
of rows matching the base query minus the number of items returned, and
`next_key` the maximum id over the entire unfiltered result set, the window
aggregates being computed before the `id > key` filter.  For the base query
returning the single row `id = 1` and `Pagination{key: Some(1), per_page: 30}`
the claim demands `remaining = 1 - 0 = 1` and `next_key = Some 1`, but the
code produces `remaining = 0` and `next_key = None`: SQL evaluates the
`WHERE id > key` filter before the window functions in the `SELECT` list, so
the aggregates never see the filtered-out row.  (The repository's own
`photo_create_get` test asserts exactly this `remaining = 0` / `next_key =
None` behaviour for the page after the last photo.) -/
theorem c1_counterexample :
    ¬((Paginated.load_and_count_pages (fun i => i)
        (List.paginate [(1 : Int)] (Pagination.page 1))).remaining =
        1 - ((Paginated.load_and_count_pages (fun i => i)
          (List.paginate [(1 : Int)] (Pagination.page 1))).items.length : Int) ∧
      (Paginated.load_and_count_pages (fun i => i)
        (List.paginate [(1 : Int)] (Pagination.page 1))).next_key = some 1) := by
  decide

/-- C1 (amended).  For every base query and every `Pagination{key, per_page}`
with `per_page ≥ 1`, writing `filtered` for the rows of the base query passing
the keyset filter `id > key` (key defaulting to 0): `remaining` equals the
number of rows in `filtered` minus the number of items returned in this page,
and `next_key` equals the maximum id over `filtered` (`None` exactly when no
row passes), i.e. the window aggregates are computed after the `id > key`
filter but before the `LIMIT` truncation. -/
theorem c1_window_aggregates {α : Type} (getId : α → Int) (rows : List α)
    (page : Pagination) (hpp : 1 ≤ page.per_page) :
    let filtered := rows.filter (fun r => page.key.getD 0 < getId r)
    let pg := Paginated.load_and_count_pages getId (rows.paginate page)
    pg.remaining = (filtered.length : Int) - (pg.items.length : Int) ∧
    (filtered = [] → pg.next_key = none ∧ pg.remaining = 0) ∧
    (filtered ≠ [] → ∃ m, pg.next_key = some m ∧ m ∈ filtered.map getId ∧
      ∀ i ∈ filtered.map getId, i ≤ m) := by
  intro filtered pg
  obtain ⟨hkey, hitems, hrem, hempty, hne⟩ :=
    load_and_count_pages_spec getId rows page filtered hpp rfl
  have hz : filtered = [] →
      (Paginated.load_and_count_pages getId (rows.paginate page)).items.length = 0 := by
    intro h
    rw [hitems, h]
    simp
  refine ⟨hrem, fun h => ⟨hempty h, by rw [hrem, h, hz h]; simp⟩, fun h => ?_⟩
  refine ⟨listMax (filtered.map getId), hne h, ?_, le_listMax _⟩
  apply listMax_mem
  simpa using h

/-- C1 (witness): the amended claim's `remaining` equation evaluated at the
base query returning rows `1, 2, 3` with `key = None`, `per_page = 2`. -/
theorem c1_window_aggregates_witness :
    (Paginated.load_and_count_pages (fun i => i)
      ([(1 : Int), 2, 3].paginate (Pagination.new none (some 2)))).remaining =
      (([(1 : Int), 2, 3].filter
        (fun r => (Pagination.new none (some 2)).key.getD 0 < r)).length : Int) -
      ((Paginated.load_and_count_pages (fun i => i)
        ([(1 : Int), 2, 3].paginate (Pagination.new none (some 2)))).items.length : Int) :=
  (c1_window_aggregates (fun i => i) [1, 2, 3] (Pagination.new none (some 2)) (by decide)).1

/-- C10.  For every `Page<T>` and every mapping function, `Page::map` and
`Page::map_items` leave `key`, `next_key` and `remaining` unchanged and only
transform `items` (`map` itemwise, `map_items` on the whole vector), so
service-layer decoration of photos never alters pagination cursors or
counts. -/
theorem c10_page_map_preserves_cursors {T U : Type} (p : Page T) (f : T → U)
    (g : List T → List U) :
    (p.map f).key = p.key ∧ (p.map f).next_key = p.next_key ∧
    (p.map f).remaining = p.remaining ∧ (p.map f).items = p.items.map f ∧
    (p.map_items g).key = p.key ∧ (p.map_items g).next_key = p.next_key ∧
    (p.map_items g).remaining = p.remaining ∧ (p.map_items g).items = g p.items :=
  ⟨rfl, rfl, rfl, rfl, rfl, rfl, rfl, rfl⟩

/-- C9.  `AttributeKeyValue::new(k, v)` succeeds if and only if `k` is
non-empty and at most 30 bytes and `v` is non-empty and at most 100 bytes
(Rust's `str::len` measures UTF-8 bytes); on success the stored key is the
lowercasing of `k` and the stored value is `v` unchanged. -/
theorem c9_attribute_validation (k v : String) :
    (AttributeKeyValue.new k v = .ok { key := rustToLowercase k, value := v } ↔
      (k.isEmpty = false ∧ rustStrLen k ≤ 30 ∧ v.isEmpty = false ∧ rustStrLen v ≤ 100)) ∧
    (∀ a, AttributeKeyValue.new k v = .ok a →
      a.key = rustToLowercase k ∧ a.value = v) := by
  constructor
  · constructor
    · intro h
      unfold AttributeKeyValue.new at h
      split_ifs at h with h1 h2 h3 h4
      try simp at h
      simp only [Bool.not_eq_true] at h1 h3
      exact ⟨h1, by omega, h3, by omega⟩
    · rintro ⟨h1, h2, h3, h4⟩
      unfold AttributeKeyValue.new
      rw [if_neg (by simp [h1]), if_neg (by omega), if_neg (by simp [h3]),
        if_neg (by omega)]
  · intro a ha
    unfold AttributeKeyValue.new at ha
    split_ifs at ha
    try simp at ha
    subst ha
    exact ⟨rfl, rfl⟩

/-- C9 (witness): the validation succeeds on `("FOO", "BAR")` with the key
downcased, as in the repository's `new_photo_attr` test. -/
theorem c9_attribute_validation_witness :
    AttributeKeyValue.new "FOO" "BAR" =
      .ok { key := rustToLowercase "FOO", value := "BAR" } :=
  ((c9_attribute_validation "FOO" "BAR").1).mpr (by decide)

/-! ## Membership lemmas and claims C3-C5 -/

/-- Unfolding of `Album::add_photos` on a one-element id list. -/
theorem add_photos_single (album : Album) (db : Db) (pid : Int) :
    album.add_photos db [pid] =
      ({ db with album_membership :=
          (insertMemberRow db.album_membership (NewAlbumMember.row pid album.id)).1 },
        (insertMemberRow db.album_membership (NewAlbumMember.row pid album.id)).2) := by
  simp only [Album.add_photos, List.map_cons, List.map_nil, List.foldl_cons,
    List.foldl_nil, Nat.zero_add]

/-- `insertMemberRow` when a row with the same composite key is present. -/
theorem insertMemberRow_of_any_true (rows : List AlbumMembership) (m : AlbumMembership)
    (h : rows.any (fun r => r.photo_id == m.photo_id && r.album_id == m.album_id) = true) :
    insertMemberRow rows m = (rows, 0) := by
  simp only [insertMemberRow, h]
  rfl

/-- `insertMemberRow` when no row with the same composite key is present. -/
theorem insertMemberRow_of_any_false (rows : List AlbumMembership) (m : AlbumMembership)
    (h : rows.any (fun r => r.photo_id == m.photo_id && r.album_id == m.album_id) = false) :
    insertMemberRow rows m = (rows ++ [m], 1) := by
  simp only [insertMemberRow, h]
  rfl

/-- C3.  Under the composite-primary-key invariant of `album_membership`
(at most one row per `(photo, album)` pair), adding the same photo id to the
same album twice via `Album::add_photos` never errors (the model of the
`ON CONFLICT DO NOTHING` insert is total), the second add is a no-op
returning insert count 0 and leaving the database unchanged, and exactly one
membership row for the pair remains. -/
theorem c3_add_photos_idempotent (db : Db) (album : Album) (pid : Int)
    (huniq : (db.album_membership.filter
      (fun r => r.photo_id == pid && r.album_id == album.id)).length ≤ 1) :
    (album.add_photos ((album.add_photos db [pid]).1) [pid]).1 =
      (album.add_photos db [pid]).1 ∧
    (album.add_photos ((album.add_photos db [pid]).1) [pid]).2 = 0 ∧
    (((album.add_photos db [pid]).1).album_membership.filter
      (fun r => r.photo_id == pid && r.album_id == album.id)).length = 1 := by
  by_cases hmem : db.album_membership.any
      (fun r => r.photo_id == pid && r.album_id == album.id) = true
  · have e1 : insertMemberRow db.album_membership (NewAlbumMember.row pid album.id) =
        (db.album_membership, 0) :=
      insertMemberRow_of_any_true _ _ (by simpa [NewAlbumMember.row] using hmem)
    have h1 : album.add_photos db [pid] = (db, 0) := by
      rw [add_photos_single, e1]
    have hfst : (album.add_photos db [pid]).1 = db := by rw [h1]
    have hlen : 1 ≤ (db.album_membership.filter
        (fun r => r.photo_id == pid && r.album_id == album.id)).length := by
      obtain ⟨r, hr, hpr⟩ := List.any_eq_true.mp hmem
      have hmemf : r ∈ db.album_membership.filter
          (fun r => r.photo_id == pid && r.album_id == album.id) :=
        List.mem_filter.mpr ⟨hr, hpr⟩
      exact List.length_pos.mpr (List.ne_nil_of_mem hmemf)
    refine ⟨?_, ?_, ?_⟩
    · rw [hfst]; exact hfst
    · rw [hfst, h1]
    · rw [hfst]; omega
  · have hmem' : db.album_membership.any
        (fun r => r.photo_id == pid && r.album_id == album.id) = false := by
      simpa using hmem
    have e1 : insertMemberRow db.album_membership (NewAlbumMember.row pid album.id) =
        (db.album_membership ++ [NewAlbumMember.row pid album.id], 1) :=
      insertMemberRow_of_any_false _ _ (by simpa [NewAlbumMember.row] using hmem')
    have h1 : album.add_photos db [pid] =
        ({ db with album_membership :=
            db.album_membership ++ [NewAlbumMember.row pid album.id] }, 1) := by
      rw [add_photos_single, e1]
    have e2 : insertMemberRow
        (db.album_membership ++ [NewAlbumMember.row pid album.id])
        (NewAlbumMember.row pid album.id) =
        (db.album_membership ++ [NewAlbumMember.row pid album.id], 0) := by
      apply insertMemberRow_of_any_true
      rw [List.any_append]
      simp [NewAlbumMember.row]
    have h2 : album.add_photos
        ({ db with album_membership :=
            db.album_membership ++ [NewAlbumMember.row pid album.id] }) [pid] =
        ({ db with album_membership :=
            db.album_membership ++ [NewAlbumMember.row pid album.id] }, 0) := by
      rw [add_photos_single]
      simp only [e2]
    have hfst2 : (album.add_photos db [pid]).1 =
        { db with album_membership :=
            db.album_membership ++ [NewAlbumMember.row pid album.id] } := by
      rw [h1]
    have hfst3 : (album.add_photos
        ({ db with album_membership :=
            db.album_membership ++ [NewAlbumMember.row pid album.id] }) [pid]).1 =
        { db with album_membership :=
            db.album_membership ++ [NewAlbumMember.row pid album.id] } := by
      rw [h2]
    have hsnd3 : (album.add_photos
        ({ db with album_membership :=
            db.album_membership ++ [NewAlbumMember.row pid album.id] }) [pid]).2 = 0 := by
      rw [h2]
    have hfil : db.album_membership.filter
        (fun r => r.photo_id == pid && r.album_id == album.id) = [] := by
      rw [List.filter_eq_nil_iff]
      intro a ha
      have := List.any_eq_false.mp hmem' a ha
      simpa using this
    refine ⟨?_, ?_, ?_⟩
    · rw [hfst2]; exact hfst3
    · rw [hfst2]; exact hsnd3
    · rw [hfst2]
      show ((db.album_membership ++ [NewAlbumMember.row pid album.id]).filter
        (fun r => r.photo_id == pid && r.album_id == album.id)).length = 1
      rw [List.filter_append, hfil]
      simp [NewAlbumMember.row]

/-- C3 (witness): an empty database, the album with id 1, photo id 5. -/
theorem c3_add_photos_idempotent_witness :
    ((Db.mk [] [] [] [] [] []).album_membership.filter
      (fun r => r.photo_id == 5 && r.album_id == (Album.mk 1 1 none 0).id)).length ≤ 1 ∧
    (((Album.mk 1 1 none 0).add_photos
        (((Album.mk 1 1 none 0).add_photos (Db.mk [] [] [] [] [] []) [5]).1) [5]).1 =
      ((Album.mk 1 1 none 0).add_photos (Db.mk [] [] [] [] [] []) [5]).1 ∧
    ((Album.mk 1 1 none 0).add_photos
        (((Album.mk 1 1 none 0).add_photos (Db.mk [] [] [] [] [] []) [5]).1) [5]).2 = 0 ∧
    ((((Album.mk 1 1 none 0).add_photos (Db.mk [] [] [] [] [] []) [5]).1).album_membership.filter
      (fun r => r.photo_id == 5 && r.album_id == (Album.mk 1 1 none 0).id)).length = 1) :=
  ⟨by decide,
    c3_add_photos_idempotent (Db.mk [] [] [] [] [] []) (Album.mk 1 1 none 0) 5 (by decide)⟩

/-- C4.  If the album exists and is owned by the caller, and the given photo
id has no membership row in this album, then `remove_photos_from_album`
succeeds, deletes no membership row of any album (the database is returned
unchanged), and returns exactly the state `fetch_album` would have returned
before the call (first page, as `remove_photos_from_album` reloads). -/
theorem c4_remove_nonmember_noop (db : Db) (user : User) (s3 : S3Access)
    (aid pid : Int) (album : Album)
    (halb : fetch_db_album db user aid = .ok album)
    (hnm : ∀ m ∈ db.album_membership, ¬(m.photo_id = pid ∧ m.album_id = album.id)) :
    remove_photos_from_album db user s3 aid [pid] =
      (db, fetch_album db user s3 aid Pagination.first) := by
  have hfil : db.album_membership.filter
      (fun r => !(r.album_id == album.id && r.photo_id == pid)) = db.album_membership := by
    rw [List.filter_eq_self]
    intro m hm
    have hno := hnm m hm
    by_cases h1 : m.album_id = album.id
    · by_cases h2 : m.photo_id = pid
      · exact absurd ⟨h2, h1⟩ hno
      · simp [h2]
    · simp [h1]
  have hrm : album.remove_photos db [pid] = (db, 1) := by
    simp only [Album.remove_photos, List.foldl_cons, List.foldl_nil, List.length_cons,
      List.length_nil, hfil]
  unfold remove_photos_from_album fetch_album
  rw [halb]
  simp only [hrm]
  rfl

/-- C4 (witness): a database holding exactly the album with id 1 owned by
user 1 and no membership rows; removing photo id 99 is a no-op returning the
unchanged state. -/
theorem c4_remove_nonmember_noop_witness :
    remove_photos_from_album (Db.mk [User.mk 1 "" ""] [] [] [Album.mk 1 1 none 0] [] [])
      (User.mk 1 "" "") (S3Access.mk "bucket" "cdn") 1 [99] =
      (Db.mk [User.mk 1 "" ""] [] [] [Album.mk 1 1 none 0] [] [],
        fetch_album (Db.mk [User.mk 1 "" ""] [] [] [Album.mk 1 1 none 0] [] [])
          (User.mk 1 "" "") (S3Access.mk "bucket" "cdn") 1 Pagination.first) :=
  c4_remove_nonmember_noop (Db.mk [User.mk 1 "" ""] [] [] [Album.mk 1 1 none 0] [] [])
    (User.mk 1 "" "") (S3Access.mk "bucket" "cdn") 1 99 (Album.mk 1 1 none 0)
    (by decide) (by decide)

/-- C5.  For any two database states and callers, a `fetch_album` for an id
such that no album row has that id (absent) and a `fetch_album` for an id
whose album rows all belong to someone else (owned-by-other) produce the very
same not-found outcome — the same 404 status and the same message, which
depends only on the requested id — so a caller cannot distinguish absent from
owned-by-other. -/
theorem c5_not_found_indistinguishable (dbA dbB : Db) (uA uB : User)
    (s3 : S3Access) (id : Int) (page : Pagination)
    (habsent : ∀ a ∈ dbA.photo_albums, a.id ≠ id)
    (hother : ∀ a ∈ dbB.photo_albums, a.id = id → a.user_id ≠ uB.id) :
    fetch_album dbA uA s3 id page =
      .error (ApiError.mk .NotFound s!"could not find album with id={id}") ∧
    fetch_album dbB uB s3 id page =
      .error (ApiError.mk .NotFound s!"could not find album with id={id}") ∧
    fetch_album dbA uA s3 id page = fetch_album dbB uB s3 id page := by
  have kA : Album.by_id dbA uA id = none := by
    unfold Album.by_id
    rw [List.filter_eq_nil_iff.mpr]
    · rfl
    · intro a ha
      have := habsent a ha
      simp [this]
  have kB : Album.by_id dbB uB id = none := by
    unfold Album.by_id
    rw [List.filter_eq_nil_iff.mpr]
    · rfl
    · intro a ha
      by_cases h : a.id = id
      · have := hother a ha h
        simp [h, this]
      · simp [h]
  have fA : fetch_db_album dbA uA id =
      .error (ApiError.mk .NotFound s!"could not find album with id={id}") := by
    unfold fetch_db_album
    rw [kA]
    rfl
  have fB : fetch_db_album dbB uB id =
      .error (ApiError.mk .NotFound s!"could not find album with id={id}") := by
    unfold fetch_db_album
    rw [kB]
    rfl
  have FA : fetch_album dbA uA s3 id page =
      .error (ApiError.mk .NotFound s!"could not find album with id={id}") := by
    unfold fetch_album
    rw [fA]
    rfl
  have FB : fetch_album dbB uB s3 id page =
      .error (ApiError.mk .NotFound s!"could not find album with id={id}") := by
    unfold fetch_album
    rw [fB]
    rfl
  exact ⟨FA, FB, by rw [FA, FB]⟩

/-- C5 (witness): an empty database (id 7 absent) versus a database whose
album 7 is owned by user 2, queried by user 1: the same 404. -/
theorem c5_not_found_indistinguishable_witness :
    fetch_album (Db.mk [] [] [] [] [] []) (User.mk 1 "" "")
        (S3Access.mk "bucket" "cdn") 7 Pagination.first =
      .error (ApiError.mk .NotFound "could not find album with id=7") ∧
    fetch_album (Db.mk [] [] [] [Album.mk 7 2 none 0] [] []) (User.mk 1 "" "")
        (S3Access.mk "bucket" "cdn") 7 Pagination.first =
      .error (ApiError.mk .NotFound "could not find album with id=7") ∧
    fetch_album (Db.mk [] [] [] [] [] []) (User.mk 1 "" "")
        (S3Access.mk "bucket" "cdn") 7 Pagination.first =
      fetch_album (Db.mk [] [] [] [Album.mk 7 2 none 0] [] []) (User.mk 1 "" "")
        (S3Access.mk "bucket" "cdn") 7 Pagination.first :=
  c5_not_found_indistinguishable (Db.mk [] [] [] [] [] [])
    (Db.mk [] [] [] [Album.mk 7 2 none 0] [] []) (User.mk 1 "" "") (User.mk 1 "" "")
    (S3Access.mk "bucket" "cdn") 7 Pagination.first (by decide) (by decide)

/-! ## Claim C6: the shared 404 of the publish paths -/

/-- The one 404 value all `get_published_photos` failures share. -/
def publishedNotFoundError (hash_id : String) : ApiError :=
  { status := Status.NotFound, message := s!"no published album with id={hash_id}" }

/-- Reduction of `get_published_photos` once the hash has decoded cleanly. -/
theorem get_published_photos_decoded (db : Db) (s3 : S3Access) (harsh : Harsh)
    (hash_id : String) (page : Pagination) (pid : Int)
    (hdec : UrlFriendlyAlbum.decode_id harsh hash_id = .ok (.ok pid)) :
    get_published_photos db s3 harsh hash_id page =
      .ok (do
        let published ← not_found (PublishedAlbum.by_id db pid) hash_id
        if !published.active then
          not_found none hash_id
        else do
          let user ← not_found (User.by_id db published.user_id) hash_id
          let album ← not_found (Album.by_id db user published.album_id) hash_id
          load_photos_page user s3 db album page) := by
  unfold get_published_photos get_published_album
  rw [hdec]
  rfl

/-- A row returned by `PublishedAlbum::by_id` carries the queried id. -/
theorem published_by_id_id (db : Db) (pid : Int) (pub : PublishedAlbum)
    (h : PublishedAlbum.by_id db pid = some pub) : pub.id = pid := by
  unfold PublishedAlbum.by_id at h
  cases hl : db.published_albums.filter (fun p => p.id == pid) with
  | nil => rw [hl] at h; simp at h
  | cons b t =>
    rw [hl] at h
    simp only [List.head?_cons, Option.some.injEq] at h
    have hb : b ∈ db.published_albums.filter (fun p => p.id == pid) := by
      rw [hl]
      exact List.mem_cons_self _ _
    have hbid : b.id = pid := by simpa using (List.mem_filter.mp hb).2
    rw [← h]
    exact hbid

/-- `PublishedAlbum::set_active` rewrites the row `by_id` sees. -/
theorem published_by_id_set_active (db : Db) (pid : Int) (pub : PublishedAlbum)
    (h : PublishedAlbum.by_id db pid = some pub) (b : Bool) :
    PublishedAlbum.by_id (pub.set_active db b) pid =
      some { pub with active := b } := by
  unfold PublishedAlbum.by_id PublishedAlbum.set_active
  unfold PublishedAlbum.by_id at h
  have hpred : (fun (r : PublishedAlbum) =>
      (if r.id == pub.id then { r with active := b } else r).id == pid) =
      (fun r => r.id == pid) := by
    funext r
    by_cases hc : (r.id == pub.id) = true
    · simp only [hc, if_pos]
    · simp only [hc]
      rw [if_neg]
      simp [hc]
  rw [List.filter_map, Function.comp_def, hpred, List.head?_map, h]
  simp

/-- `PublishedAlbum::delete` makes the row invisible to `by_id`. -/
theorem published_by_id_delete (db : Db) (pid : Int) (pub : PublishedAlbum)
    (h : PublishedAlbum.by_id db pid = some pub) :
    PublishedAlbum.by_id (pub.delete db) pid = none := by
  have hid : pub.id = pid := published_by_id_id db pid pub h
  unfold PublishedAlbum.by_id PublishedAlbum.delete
  rw [List.filter_filter]
  rw [List.filter_eq_nil_iff.mpr]
  · rfl
  · intro a _
    by_cases ha : a.id = pid
    · simp [ha, hid]
    · simp [ha]

/-- Monadic bind on `Except` applied to a success value. -/
theorem except_pure_bind {e a b : Type} (x : a) (f : a → Except e b) :
    (Except.ok x : Except e a) >>= f = f x := rfl

/-- C6.  For a hash that decodes cleanly, every failure mode of
`get_published_photos` — the decoded id has no published-album row, the row
exists but `active == false`, the owning user is missing, the album is
missing — returns the very same not-found outcome (one 404 whose message
depends only on the hash); moreover toggling an existing publish inactive
makes the fetch fail with exactly that same outcome (like a hash that decodes
to no row), and deleting the publish makes it subsequently unfetchable with
the same outcome. -/
theorem c6_published_failures_collapse (db : Db) (s3 : S3Access) (harsh : Harsh)
    (hash_id : String) (page : Pagination) (pid : Int)
    (hdec : UrlFriendlyAlbum.decode_id harsh hash_id = .ok (.ok pid)) :
    (PublishedAlbum.by_id db pid = none →
      get_published_photos db s3 harsh hash_id page =
        .ok (.error (publishedNotFoundError hash_id))) ∧
    (∀ pub, PublishedAlbum.by_id db pid = some pub → pub.active = false →
      get_published_photos db s3 harsh hash_id page =
        .ok (.error (publishedNotFoundError hash_id))) ∧
    (∀ pub, PublishedAlbum.by_id db pid = some pub → pub.active = true →
      User.by_id db pub.user_id = none →
      get_published_photos db s3 harsh hash_id page =
        .ok (.error (publishedNotFoundError hash_id))) ∧
    (∀ pub u, PublishedAlbum.by_id db pid = some pub → pub.active = true →
      User.by_id db pub.user_id = some u → Album.by_id db u pub.album_id = none →
      get_published_photos db s3 harsh hash_id page =
        .ok (.error (publishedNotFoundError hash_id))) ∧
    (∀ pub, PublishedAlbum.by_id db pid = some pub →
      get_published_photos (pub.set_active db false) s3 harsh hash_id page =
        .ok (.error (publishedNotFoundError hash_id))) ∧
    (∀ pub, PublishedAlbum.by_id db pid = some pub →
      get_published_photos (pub.delete db) s3 harsh hash_id page =
        .ok (.error (publishedNotFoundError hash_id))) := by
  refine ⟨?_, ?_, ?_, ?_, ?_, ?_⟩
  · intro h
    rw [get_published_photos_decoded db s3 harsh hash_id page pid hdec, h]
    rfl
  · intro pub hby hact
    rw [get_published_photos_decoded db s3 harsh hash_id page pid hdec, hby]
    simp only [not_found, ApiError.not_found, except_pure_bind, hact]
    rfl
  · intro pub hby hact huser
    rw [get_published_photos_decoded db s3 harsh hash_id page pid hdec, hby]
    simp only [not_found, ApiError.not_found, except_pure_bind, hact, huser]
    rfl
  · intro pub u hby hact huser halb
    rw [get_published_photos_decoded db s3 harsh hash_id page pid hdec, hby]
    simp only [not_found, ApiError.not_found, except_pure_bind, hact, huser, halb]
    rfl
  · intro pub hby
    rw [get_published_photos_decoded (pub.set_active db false) s3 harsh hash_id page pid hdec,
      published_by_id_set_active db pid pub hby false]
    rfl
  · intro pub hby
    rw [get_published_photos_decoded (pub.delete db) s3 harsh hash_id page pid hdec,
      published_by_id_delete db pid pub hby]
    rfl


/-- C6 (witness): with salt "foo", the hash "hfoox7" decodes to id 7; an
empty database has no published album 7, and the fetch returns the shared
404. -/
theorem c6_published_failures_collapse_witness :
    get_published_photos (Db.mk [] [] [] [] [] []) (S3Access.mk "bucket" "cdn")
        (Harsh.mk "foo") "hfoox7" Pagination.first =
      .ok (.error (publishedNotFoundError "hfoox7")) :=
  (c6_published_failures_collapse (Db.mk [] [] [] [] [] []) (S3Access.mk "bucket" "cdn")
    (Harsh.mk "foo") "hfoox7" Pagination.first 7 (by decide)).1 (by decide)

/-! ## Lemmas: decimal conversion -/

theorem digitChar_isDigit (d : Nat) (h : d < 10) : (digitChar d).isDigit = true := by
  interval_cases d <;> decide

theorem digitChar_toNat (d : Nat) (h : d < 10) : (digitChar d).toNat = 48 + d := by
  interval_cases d <;> decide

theorem natDigitsAux_all_digits :
    ∀ (fuel n : Nat), (natDigitsAux fuel n).all Char.isDigit = true := by
  intro fuel
  induction fuel with
  | zero => intro n; rfl
  | succ f ih =>
    intro n
    cases n with
    | zero => rfl
    | succ m =>
      simp only [natDigitsAux, List.all_append, ih ((m + 1) / 10), Bool.true_and]
      simp [digitChar_isDigit ((m + 1) % 10) (Nat.mod_lt _ (by norm_num))]

theorem natDigitsAux_ne_nil (fuel n : Nat) (h1 : 0 < n) (h2 : n ≤ fuel) :
    natDigitsAux fuel n ≠ [] := by
  cases fuel with
  | zero => omega
  | succ f =>
    cases n with
    | zero => omega
    | succ m =>
      simp [natDigitsAux]

theorem parseNatAux_append (acc : Nat) (xs ys : List Char) :
    parseNatAux acc (xs ++ ys) = parseNatAux (parseNatAux acc xs) ys := by
  induction xs generalizing acc with
  | nil => rfl
  | cons c cs ih =>
    rw [List.cons_append]
    show parseNatAux (10 * acc + (c.toNat - 48)) (cs ++ ys) =
      parseNatAux (parseNatAux (10 * acc + (c.toNat - 48)) cs) ys
    exact ih _

theorem parseNatAux_natDigitsAux (fuel n acc : Nat) (h : n ≤ fuel) :
    parseNatAux acc (natDigitsAux fuel n) =
      acc * 10 ^ (natDigitsAux fuel n).length + n := by
  induction fuel generalizing n acc with
  | zero =>
    have hn0 : n = 0 := by omega
    subst hn0
    simp only [natDigitsAux]
    show acc = acc * 10 ^ ([] : List Char).length + 0
    simp
  | succ f ih =>
    cases n with
    | zero =>
      simp only [natDigitsAux]
      show acc = acc * 10 ^ ([] : List Char).length + 0
      simp
    | succ m =>
      have hdiv : (m + 1) / 10 ≤ f := by
        have := Nat.div_lt_self (Nat.succ_pos m) (by norm_num : 1 < 10)
        omega
      have hd : (digitChar ((m + 1) % 10)).toNat = 48 + (m + 1) % 10 :=
        digitChar_toNat _ (Nat.mod_lt _ (by norm_num))
      rw [show natDigitsAux (f + 1) (m + 1) =
        natDigitsAux f ((m + 1) / 10) ++ [digitChar ((m + 1) % 10)] from rfl]
      rw [parseNatAux_append, ih ((m + 1) / 10) acc hdiv]
      rw [show ∀ a, parseNatAux a [digitChar ((m + 1) % 10)] =
        10 * a + ((digitChar ((m + 1) % 10)).toNat - 48) from fun a => rfl]
      rw [hd, List.length_append, List.length_cons, List.length_nil]
      have hqr : 10 * ((m + 1) / 10) + (m + 1) % 10 = m + 1 := Nat.div_add_mod (m + 1) 10
      have h48 : 48 + (m + 1) % 10 - 48 = (m + 1) % 10 := by omega
      rw [h48, pow_succ]
      set L := (natDigitsAux f ((m + 1) / 10)).length
      set q := (m + 1) / 10
      set rr := (m + 1) % 10
      calc 10 * (acc * 10 ^ L + q) + rr = acc * (10 ^ L * 10) + (10 * q + rr) := by ring
      _ = acc * (10 ^ L * 10) + (m + 1) := by rw [hqr]

theorem natDecimalDigits_all_digits (n : Nat) :
    (natDecimalDigits n).all Char.isDigit = true := by
  unfold natDecimalDigits
  split
  · decide
  · exact natDigitsAux_all_digits n n

theorem natDecimalDigits_ne_nil (n : Nat) : natDecimalDigits n ≠ [] := by
  unfold natDecimalDigits
  split
  · simp
  · exact natDigitsAux_ne_nil n n (by omega) (le_refl n)

theorem parseNatAux_natDecimalDigits (n : Nat) :
    parseNatAux 0 (natDecimalDigits n) = n := by
  unfold natDecimalDigits
  split
  · subst_eqs; decide
  · rw [parseNatAux_natDigitsAux n n 0 (le_refl n)]
    simp

theorem parseNatDigits_natDecimalDigits (n : Nat) :
    parseNatDigits (natDecimalDigits n) = some n := by
  unfold parseNatDigits
  rw [if_neg, parseNatAux_natDecimalDigits]
  simp only [Bool.or_eq_true, not_or, Bool.not_eq_true]
  have hall := natDecimalDigits_all_digits n
  rw [List.all_eq_true] at hall
  constructor
  · rw [List.isEmpty_eq_false]
    exact natDecimalDigits_ne_nil n
  · rw [List.any_eq_false]
    intro c hc
    simp [hall c hc]

/-! ## Lemmas: the hash codec roundtrip (claims C7, C8) -/

theorem isHexDigitChar_of_isDigit (c : Char) (h : c.isDigit = true) :
    isHexDigitChar c = true := by
  simp [isHexDigitChar, h]

theorem i32ToString_nonneg (i : Int) (h0 : 0 ≤ i) :
    i32ToString i = ⟨natDecimalDigits i.toNat⟩ := by
  unfold i32ToString
  rw [if_neg (by omega)]

theorem encode_hex_i32ToString (h : Harsh) (i : Int) (h0 : 0 ≤ i) :
    h.encode_hex (i32ToString i) = some ("h" ++ h.salt ++ "x" ++ i32ToString i) := by
  unfold Harsh.encode_hex
  rw [if_neg]
  simp only [Bool.or_eq_true, not_or, Bool.not_eq_true]
  rw [i32ToString_nonneg i h0]
  constructor
  · rw [List.isEmpty_eq_false]
    exact natDecimalDigits_ne_nil _
  · rw [List.any_eq_false]
    intro c hc
    have hall := natDecimalDigits_all_digits i.toNat
    rw [List.all_eq_true] at hall
    simp [isHexDigitChar_of_isDigit c (hall c hc)]

theorem stripPre_append (p s : List Char) : stripPre p (p ++ s) = some s := by
  induction p with
  | nil => rfl
  | cons c cs ih =>
    show (if c = c then stripPre cs (cs ++ s) else none) = some s
    rw [if_pos rfl, ih]

theorem decode_hex_encoded (h : Harsh) (hex : String)
    (hne : hex.data ≠ []) (hhex : hex.data.all isHexDigitChar = true) :
    h.decode_hex ("h" ++ h.salt ++ "x" ++ hex) = .ok (some hex) := by
  unfold Harsh.decode_hex
  rw [String.data_append ("h" ++ h.salt ++ "x") hex, stripPre_append]
  show (if (!hex.data.isEmpty && hex.data.all isHexDigitChar) = true
    then RustOutcome.ok (some ⟨hex.data⟩) else _) = RustOutcome.ok (some hex)
  have hc : (!hex.data.isEmpty && hex.data.all isHexDigitChar) = true := by
    simp [List.isEmpty_eq_false.mpr hne, hhex]
  rw [if_pos hc]

theorem parseI32_i32ToString (i : Int) (h0 : 0 ≤ i) (h31 : i < 2 ^ 31) :
    parseI32 (i32ToString i) = some i := by
  rw [i32ToString_nonneg i h0]
  unfold parseI32
  cases hl : natDecimalDigits i.toNat with
  | nil => exact absurd hl (natDecimalDigits_ne_nil _)
  | cons c cs =>
    have hcd : c.isDigit = true := by
      have hall := natDecimalDigits_all_digits i.toNat
      rw [List.all_eq_true] at hall
      exact hall c (by rw [hl]; exact List.mem_cons_self _ _)
    have hc1 : ¬(c = '-') := by
      intro hc
      rw [hc] at hcd
      simp at hcd
    have hc2 : ¬(c = '+') := by
      intro hc
      rw [hc] at hcd
      simp at hcd
    show (if c = '-' then
        (parseNatDigits cs).bind (fun n => if n ≤ 2 ^ 31 then some (-(n : Int)) else none)
      else if c = '+' then
        (parseNatDigits cs).bind (fun n => if n < 2 ^ 31 then some ((n : Int)) else none)
      else
        (parseNatDigits (c :: cs)).bind
          (fun n => if n < 2 ^ 31 then some ((n : Int)) else none)) = some i
    rw [if_neg hc1, if_neg hc2, ← hl, parseNatDigits_natDecimalDigits]
    show (if i.toNat < 2 ^ 31 then some ((i.toNat : Int)) else none) = some i
    rw [if_pos (by omega)]
    congr 1
    omega

/-- C7.  For every published-album row whose id is a positive `i32` (as every
id produced by publishing is), `UrlFriendlyAlbum::new` succeeds, and decoding
the hash it produced via `UrlFriendlyAlbum::decode_id` recovers the original
published-album id. -/
theorem c7_encode_decode_roundtrip (harsh : Harsh) (published : PublishedAlbum)
    (h1 : 1 ≤ published.id) (h2 : published.id < 2 ^ 31) :
    (UrlFriendlyAlbum.new harsh published).map
      (fun u => UrlFriendlyAlbum.decode_id harsh u.hash) =
      some (.ok (.ok published.id)) := by
  have h0 : 0 ≤ published.id := by omega
  have hne : (i32ToString published.id).data ≠ [] := by
    rw [i32ToString_nonneg _ h0]
    exact natDecimalDigits_ne_nil _
  have hhex : (i32ToString published.id).data.all isHexDigitChar = true := by
    rw [i32ToString_nonneg _ h0]
    have hall := natDecimalDigits_all_digits (published.id).toNat
    rw [List.all_eq_true] at hall ⊢
    intro c hc
    exact isHexDigitChar_of_isDigit c (hall c hc)
  unfold UrlFriendlyAlbum.new
  rw [encode_hex_i32ToString harsh published.id h0]
  show some (UrlFriendlyAlbum.decode_id harsh ("h" ++ harsh.salt ++ "x" ++
    i32ToString published.id)) = some (.ok (.ok published.id))
  unfold UrlFriendlyAlbum.decode_id
  rw [decode_hex_encoded harsh _ hne hhex]
  show some (RustOutcome.ok (Except.bind (ApiError.not_found
    (some (i32ToString published.id)) _) _)) = _
  show some (RustOutcome.ok (match parseI32 (i32ToString published.id) with
    | some id => Except.ok id
    | none => @ApiError.not_found Int none _)) = _
  rw [parseI32_i32ToString published.id h0 h2]

/-- C7 (witness): salt "foo" and the repository's fake published album
(id 22). -/
theorem c7_encode_decode_roundtrip_witness :
    (UrlFriendlyAlbum.new (Harsh.mk "foo") (PublishedAlbum.mk 22 390 3 true 0)).map
      (fun u => UrlFriendlyAlbum.decode_id (Harsh.mk "foo") u.hash) =
      some (.ok (.ok 22)) :=
  c7_encode_decode_roundtrip (Harsh.mk "foo") (PublishedAlbum.mk 22 390 3 true 0)
    (by decide) (by decide)

/-- C8.  The repository documents (test `document_harsher_bug`) that the
codec panics with "attempt to multiply with overflow" on the adversarial
input `"nonsense!!#$!)(&#(*)"` instead of returning the not-found decode
error — while a well-formed non-hash such as `"nonsense"` does fail with the
404 carrying only the input.  The claim that decoding never panics is
therefore the intent, and the code (through its `harsh` dependency) a known
defect: this theorem evaluates the model at the repository's own failing
input. -/
theorem c8_decode_panics_on_adversarial_input :
    UrlFriendlyAlbum.decode_id (Harsh.mk "foo") "nonsense!!#$!)(&#(*)" =
      .panicked "attempt to multiply with overflow" ∧
    UrlFriendlyAlbum.decode_id (Harsh.mk "foo") "nonsense" =
      .ok (.error (ApiError.mk .NotFound "nonsense")) := by
  exact ⟨by decide, by decide⟩

/-! ## Lemmas: list maximum of a sorted list, join helpers (claim C2) -/

theorem foldl_max_init (a b : Int) (ys : List Int) :
    ys.foldl max (max a b) = max a (ys.foldl max b) := by
  induction ys generalizing b with
  | nil => rfl
  | cons z zs ih =>
    simp only [List.foldl_cons]
    rw [max_assoc, ih]

theorem listMax_cons (x : Int) (xs : List Int) (h : xs ≠ []) :
    listMax (x :: xs) = max x (listMax xs) := by
  cases xs with
  | nil => exact absurd rfl h
  | cons y ys =>
    show (y :: ys).foldl max x = max x (ys.foldl max y)
    rw [List.foldl_cons]
    exact foldl_max_init x y ys

theorem listMax_eq_getLast? (l : List Int) (h : l ≠ [])
    (hs : l.Pairwise (· ≤ ·)) : some (listMax l) = l.getLast? := by
  induction l with
  | nil => exact absurd rfl h
  | cons x xs ih =>
    rw [List.pairwise_cons] at hs
    cases hxs : xs with
    | nil =>
      subst hxs
      rfl
    | cons y ys =>
      subst hxs
      have hne : (y :: ys) ≠ [] := by simp
      rw [listMax_cons x _ hne, List.getLast?_cons_cons, ← ih hne hs.2]
      congr 1
      apply max_eq_right
      exact hs.1 _ (listMax_mem (y :: ys) hne)

theorem flatMap_eq_map {α β : Type} (l : List α) (g : α → List β) (f : α → β)
    (h : ∀ a ∈ l, g a = [f a]) : l.flatMap g = l.map f := by
  induction l with
  | nil => rfl
  | cons x xs ih =>
    show g x ++ xs.flatMap g = f x :: xs.map f
    rw [h x (List.mem_cons_self _ _), ih (fun a ha => h a (List.mem_cons_of_mem _ ha))]
    rfl

theorem zip3_map {α β γ δ : Type} (A : List α) (f : α → β) (g : α → γ) (h : α → δ) :
    (A.map f).zip ((A.map g).zip (A.map h)) = A.map (fun a => (f a, g a, h a)) := by
  induction A with
  | nil => rfl
  | cons x xs ih => simp [ih]

/-! ## A generic album family for claim C2

An album whose photo rows are generated from an arbitrary id list models "an
album with `n` photos"; the inert columns take fixed values, the ids are the
parameters the pagination engine looks at. -/

/-- A photo row with the given owner and id. -/
def photoRowOf (uid i : Int) : Photo :=
  { id := i, uuid := "", owner := uid, present := some true, created_at := 0, updated_at := 0 }

/-- A membership row linking photo `i` to album `aid`. -/
def memberRowOf (aid i : Int) : AlbumMembership :=
  { photo_id := i, album_id := aid, ordering := none, caption := none, updated_at := 0 }

/-- The album row. -/
def albumRowOf (aid uid : Int) : Album :=
  { id := aid, user_id := uid, name := none, created_at := 0 }

/-- The database holding one user, one album, and one photo-with-membership
per id in `ids` (inserted in list order). -/
def albumOfIds (aid uid : Int) (ids : List Int) : Db :=
  { users := [{ id := uid, email := "", uuid := "" }]
    photos := ids.map (photoRowOf uid)
    photo_attrs := []
    photo_albums := [albumRowOf aid uid]
    album_membership := ids.map (memberRowOf aid)
    published_albums := [] }

theorem filter_photo_single (uid : Int) (ids : List Int) (i : Int)
    (hnd : ids.Nodup) (hi : i ∈ ids) :
    (ids.map (photoRowOf uid)).filter (fun p => p.id == i) = [photoRowOf uid i] := by
  induction ids with
  | nil => cases hi
  | cons j js ih =>
    rw [List.map_cons, List.filter_cons]
    rw [List.nodup_cons] at hnd
    rcases List.mem_cons.mp hi with h | h
    · subst h
      have htail : (js.map (photoRowOf uid)).filter (fun p => p.id == i) = [] := by
        rw [List.filter_eq_nil_iff]
        intro p hp
        obtain ⟨k, hk, rfl⟩ := List.mem_map.mp hp
        have hki : k ≠ i := fun he => hnd.1 (he ▸ hk)
        simp [photoRowOf, hki]
      simp [photoRowOf, htail]
    · have hji : j ≠ i := fun he => hnd.1 (he ▸ h)
      simp [photoRowOf, hji, ih hnd.2 h]

/-- The membership-photo join over `albumOfIds` is one row per id, in id-list
order. -/
theorem photoJoin_albumOfIds (aid uid : Int) (ids : List Int) (hnd : ids.Nodup) :
    (albumRowOf aid uid).photoJoin (albumOfIds aid uid ids) =
      ids.map (fun i => (memberRowOf aid i, photoRowOf uid i)) := by
  unfold Album.photoJoin
  have hm : ((albumOfIds aid uid ids).album_membership.filter
      (fun m => m.album_id == (albumRowOf aid uid).id)) = ids.map (memberRowOf aid) := by
    show ((ids.map (memberRowOf aid)).filter
      (fun m => m.album_id == (albumRowOf aid uid).id)) = ids.map (memberRowOf aid)
    rw [List.filter_eq_self]
    intro m hmm
    obtain ⟨i, hi, rfl⟩ := List.mem_map.mp hmm
    simp [memberRowOf, albumRowOf]
  rw [hm]
  rw [flatMap_eq_map (ids.map (memberRowOf aid)) _
    (fun m => (m, photoRowOf uid m.photo_id))]
  · rw [List.map_map]
    rfl
  · intro m hmm
    obtain ⟨i, hi, rfl⟩ := List.mem_map.mp hmm
    show (((albumOfIds aid uid ids).photos).filter
      (fun p => p.id == (memberRowOf aid i).photo_id)).map
        (fun p => (memberRowOf aid i, p)) = _
    have : (memberRowOf aid i).photo_id = i := rfl
    rw [this]
    show ((ids.map (photoRowOf uid)).filter (fun p => p.id == i)).map
      (fun p => (memberRowOf aid i, p)) = _
    rw [filter_photo_single uid ids i hnd hi]
    rfl

/-- When every row passes the keyset filter and the base rows are already in
ascending id order, the page items are exactly the first `per_page` base
rows. -/
theorem load_sorted_items {α : Type} (getId : α → Int) (rows : List α) (p : Int)
    (hfilter : rows.filter (fun r => (0 : Int) < getId r) = rows)
    (hpairwise : rows.Pairwise (fun a b => decide (getId a ≤ getId b) = true)) :
    (Paginated.load_and_count_pages getId
      (rows.paginate { key := none, per_page := p })).items = rows.take p.toNat := by
  simp only [Paginated.load_and_count_pages, Paginated.sqlRows, List.paginate,
    Pagination.limit, Option.getD_none]
  rw [hfilter, sortBy_eq_self_of_pairwise _ _ hpairwise]
  rw [← List.map_take, List.map_map]
  exact List.map_id _

/-- C2 (amended).  Over an album with `n` photos of strictly increasing
positive ids, paginated with `Pagination{key: None, per_page: p}` (`p ≥ 1`):
the page consists of the first `min n p` photos in id order with their
membership rows (and no attributes); if `n ≤ p` all `n` items are returned
and `remaining = 0`; if `n > p` exactly `p` items are returned and
`remaining = n - p`; and in every case `next_key` is the id of the n-th
(last) inserted photo (`None` only when the album is empty) — not `None`
whenever `n ≤ p`, as the original claim stated. -/
theorem c2_album_page_shape (aid uid p : Int) (ids : List Int)
    (hchain : ids.Chain' (· < ·)) (hpos : ∀ i ∈ ids, 0 < i) (hp : 1 ≤ p) :
    ((albumRowOf aid uid).get_photos (albumOfIds aid uid ids)
        (Pagination.new none (some p))).items =
      (ids.take p.toNat).map
        (fun i => (photoRowOf uid i, memberRowOf aid i, ([] : List PhotoAttr))) ∧
    (ids.length ≤ p.toNat →
      ((albumRowOf aid uid).get_photos (albumOfIds aid uid ids)
        (Pagination.new none (some p))).items.length = ids.length ∧
      ((albumRowOf aid uid).get_photos (albumOfIds aid uid ids)
        (Pagination.new none (some p))).remaining = 0) ∧
    (p.toNat < ids.length →
      ((albumRowOf aid uid).get_photos (albumOfIds aid uid ids)
        (Pagination.new none (some p))).items.length = p.toNat ∧
      ((albumRowOf aid uid).get_photos (albumOfIds aid uid ids)
        (Pagination.new none (some p))).remaining = (ids.length : Int) - p) ∧
    ((albumRowOf aid uid).get_photos (albumOfIds aid uid ids)
        (Pagination.new none (some p))).next_key = ids.getLast? := by
  have hpage : Pagination.new none (some p) = { key := none, per_page := p } := by
    show (if p ≥ 1 then ({ key := none, per_page := p } : Pagination)
      else { key := none, per_page := DEFAULT_PER_PAGE }) = { key := none, per_page := p }
    rw [if_pos (show p ≥ 1 from hp)]
  have hpair : ids.Pairwise (· < ·) := List.chain'_iff_pairwise.mp hchain
  have hnd : ids.Nodup := hpair.imp (fun h => ne_of_lt h)
  have hfilter : (ids.map (fun i => (memberRowOf aid i, photoRowOf uid i))).filter
      (fun r => (0 : Int) < r.2.id) =
      ids.map (fun i => (memberRowOf aid i, photoRowOf uid i)) := by
    rw [List.filter_eq_self]
    intro r hr
    obtain ⟨i, hi, rfl⟩ := List.mem_map.mp hr
    simpa [photoRowOf] using hpos i hi
  have hpw : (ids.map (fun i => (memberRowOf aid i, photoRowOf uid i))).Pairwise
      (fun a b => decide (a.2.id ≤ b.2.id) = true) := by
    rw [List.pairwise_map]
    exact hpair.imp (fun h => by simpa [photoRowOf] using le_of_lt h)
  have hitems : (Paginated.load_and_count_pages (fun mp => mp.2.id)
      (List.paginate (ids.map (fun i => (memberRowOf aid i, photoRowOf uid i)))
        { key := none, per_page := p })).items =
      (ids.take p.toNat).map (fun i => (memberRowOf aid i, photoRowOf uid i)) := by
    have h := load_sorted_items (fun mp : AlbumMembership × Photo => mp.2.id)
      (ids.map (fun i => (memberRowOf aid i, photoRowOf uid i))) p hfilter hpw
    rw [h, ← List.map_take]
  have hfe : (ids.map (fun i => (memberRowOf aid i, photoRowOf uid i))) =
      (ids.map (fun i => (memberRowOf aid i, photoRowOf uid i))).filter
        (fun r => ({ key := none, per_page := p } : Pagination).key.getD 0 < r.2.id) :=
    hfilter.symm
  obtain ⟨hkey, hlenmin, hrem, hemp, hne⟩ :=
    load_and_count_pages_spec (fun mp => mp.2.id)
      (ids.map (fun i => (memberRowOf aid i, photoRowOf uid i)))
      { key := none, per_page := p }
      (ids.map (fun i => (memberRowOf aid i, photoRowOf uid i))) hp hfe
  rw [hpage]
  simp only [Album.get_photos]
  rw [photoJoin_albumOfIds aid uid ids hnd]
  simp only [hitems, List.map_map]
  have hzip : ((ids.take p.toNat).map
        (fun i => ((memberRowOf aid i, photoRowOf uid i) : AlbumMembership × Photo).2)).zip
      (((ids.take p.toNat).map
        (fun i => ((memberRowOf aid i, photoRowOf uid i) : AlbumMembership × Photo).1)).zip
        (groupedAttrs (albumOfIds aid uid ids)
          ((ids.take p.toNat).map
            (fun i => ((memberRowOf aid i, photoRowOf uid i) : AlbumMembership × Photo).2)))) =
      (ids.take p.toNat).map
        (fun i => (photoRowOf uid i, memberRowOf aid i, ([] : List PhotoAttr))) := by
    have hattrs : groupedAttrs (albumOfIds aid uid ids)
        ((ids.take p.toNat).map
          (fun i => ((memberRowOf aid i, photoRowOf uid i) : AlbumMembership × Photo).2)) =
        (ids.take p.toNat).map (fun _ => ([] : List PhotoAttr)) := by
      unfold groupedAttrs albumOfIds
      rw [List.map_map]
      rfl
    rw [hattrs]
    exact zip3_map (ids.take p.toNat) _ _ _
  simp only [Function.comp_def]
  rw [hzip]
  refine ⟨rfl, ?_, ?_, ?_⟩
  · intro hle
    constructor
    · simp only [List.length_map, List.length_take]
      omega
    · rw [hrem, hlenmin]
      simp only [List.length_map]
      omega
  · intro hlt
    constructor
    · simp only [List.length_map, List.length_take]
      omega
    · rw [hrem, hlenmin]
      simp only [List.length_map]
      omega
  · by_cases hids : ids = []
    · rw [hemp (by rw [hids]; rfl), hids]
      rfl
    · have hmapne : (ids.map (fun i => (memberRowOf aid i, photoRowOf uid i))) ≠ [] := by
        simpa using hids
      rw [hne hmapne, List.map_map]
      have hcomp : ((fun mp : AlbumMembership × Photo => mp.2.id) ∘
          fun i => (memberRowOf aid i, photoRowOf uid i)) = fun i : Int => i := rfl
      rw [hcomp]
      have hmapid : ids.map (fun i : Int => i) = ids := List.map_id ids
      rw [hmapid]
      exact listMax_eq_getLast? ids hids (hpair.imp (fun h => le_of_lt h))

/-- C2 (counterexample).  The claim says that for `n ≤ p` the page has
`next_key == None`.  For an album holding the single photo id 7 fetched with
`Pagination{key: None, per_page: 30}` (so `n = 1 ≤ 30 = p`) the code returns
`next_key = Some 7`, the max id of the album's photos — the repository's own
`photo_create_get` test likewise asserts `next_key` is `Some` on a one-photo
first page. -/
theorem c2_counterexample :
    ¬(((albumRowOf 1 1).get_photos (albumOfIds 1 1 [7])
        (Pagination.new none (some 30))).remaining = 0 ∧
      ((albumRowOf 1 1).get_photos (albumOfIds 1 1 [7])
        (Pagination.new none (some 30))).next_key = none) := by
  decide

/-- C2 (witness): the amended claim at an album with photo ids 3, 5 and
`per_page = 1`. -/
theorem c2_album_page_shape_witness :
    ((albumRowOf 1 1).get_photos (albumOfIds 1 1 [3, 5])
        (Pagination.new none (some 1))).items =
      (([3, 5] : List Int).take (1 : Int).toNat).map
        (fun i => (photoRowOf 1 i, memberRowOf 1 i, ([] : List PhotoAttr))) ∧
    (([3, 5] : List Int).length ≤ (1 : Int).toNat →
      ((albumRowOf 1 1).get_photos (albumOfIds 1 1 [3, 5])
        (Pagination.new none (some 1))).items.length = ([3, 5] : List Int).length ∧
      ((albumRowOf 1 1).get_photos (albumOfIds 1 1 [3, 5])
        (Pagination.new none (some 1))).remaining = 0) ∧
    ((1 : Int).toNat < ([3, 5] : List Int).length →
      ((albumRowOf 1 1).get_photos (albumOfIds 1 1 [3, 5])
        (Pagination.new none (some 1))).items.length = (1 : Int).toNat ∧
      ((albumRowOf 1 1).get_photos (albumOfIds 1 1 [3, 5])
        (Pagination.new none (some 1))).remaining = (([3, 5] : List Int).length : Int) - 1) ∧
    ((albumRowOf 1 1).get_photos (albumOfIds 1 1 [3, 5])
        (Pagination.new none (some 1))).next_key = ([3, 5] : List Int).getLast? :=
  c2_album_page_shape 1 1 1 [3, 5]
    (by norm_num [List.chain'_cons, List.chain'_singleton]) (by decide) (by decide)
